import Mathlib

/-!
Verification of "The Dummy Is You" — a WebGL ray tracer with a pose-driven
skeleton overlay.  This file shallowly embeds:

* the host-side Scene Buffer encoder (`createSceneDataTexture` in render.js)
  and the shader-side decoders (`fetchFloat` / `fetchWorldMatrix` /
  `fetchMaterial` in shaders/test.frag), over exact rationals;
* the object-space primitive intersection and normal routines, the
  intersection dispatch, the shadow scan `isInShadow` and the closest-hit
  selection loop of `traceRay`, over the reals (GLSL floats are modelled by
  ℝ with Lean's total division; `sqrt` by `Real.sqrt`);
* the skeleton injection path (`updatePoseObjects`, `createCylinderMatrix`,
  and the pose-object initialization in render.js).
-/

namespace Dummy

/-! ### Part A: Scene Buffer codec, over ℚ -/

/-- floats per object record: 1 type tag + 16 matrix floats + 18 material
scalars, as written by the flattener and by the skeleton writers. -/
def floatsPerObject : ℕ := 35

/-- rows are padded to a multiple of 4 floats: `Math.ceil(floatsPerObject/4)*4`
in `createSceneDataTexture`. -/
def floatsPerRow : ℕ := (floatsPerObject + 3) / 4 * 4

/-- a scene object record: primitive type tag, 4×4 world matrix (entry
`worldMatrix r c` is row `r`, column `c`, the row-major authoring order), and
18 material scalars in the order ambient rgb, diffuse rgb, specular rgb,
shininess, ior, useTexture, repeatU, repeatV, textureIndex, reflective rgb. -/
structure SceneObject where
  primitiveType : ℚ
  worldMatrix : Fin 4 → Fin 4 → ℚ
  material : Fin 18 → ℚ

/-- Modelled from the spec: `SceneFlattener.js` is not among the given
sources; the per-record flat layout (type at offset 0, the 16 row-major
world-matrix floats at offsets 1..16, the 18 material scalars at offsets
17..34) follows the spec's Scene Object Record contract, and matches the
in-repository writers `initializePoseObjects` / `updatePoseObjects`. -/
def flattenObject (o : SceneObject) (k : ℕ) : ℚ :=
  if k = 0 then o.primitiveType
  else if h : k < 17 then
    o.worldMatrix ⟨(k - 1) / 4, by omega⟩ ⟨(k - 1) % 4, by omega⟩
  else if h : k < 35 then o.material ⟨k - 17, by omega⟩
  else 0

/-- host-side encoder `createSceneDataTexture`: record `i` occupies floats
`[i*floatsPerRow, i*floatsPerRow + floatsPerObject)` of the backing array;
the padding floats and all rows past the object list stay zero. -/
def createSceneData (objs : List SceneObject) : ℕ → ℚ := fun n =>
  let row := n / floatsPerRow
  let off := n % floatsPerRow
  if h : row < objs.length ∧ off < floatsPerObject then
    flattenObject (objs.get ⟨row, h.1⟩) off
  else 0

/-- one RGBA32F texel of the scene texture: texel `(x, y)` holds the four
consecutive floats starting at `y * floatsPerRow + 4 * x`; `ch < 4` selects
the channel. -/
def texelFetch (data : ℕ → ℚ) (x y ch : ℕ) : ℚ :=
  data (y * floatsPerRow + 4 * x + ch)

/-- shader-side `fetchFloat`: `texelX = idx / 4`, `channel = idx - texelX*4`,
then select the channel of the fetched texel. -/
def fetchFloat (data : ℕ → ℚ) (idx row : ℕ) : ℚ :=
  let texelX := idx / 4
  let channel := idx - texelX * 4
  if channel = 0 then texelFetch data texelX row 0
  else if channel = 1 then texelFetch data texelX row 1
  else if channel = 2 then texelFetch data texelX row 2
  else texelFetch data texelX row 3

/-- shader-side `fetchWorldMatrix`: the 16 floats after the type tag are read
in row-major order and stored into the column-major GLSL matrix via
`M[c][r] = value`, i.e. the documented row-major-to-column-major transpose.
The returned function gives the mathematical entry at row `r`, column `c`
(which GLSL addresses as `M[c][r]`). -/
def fetchWorldMatrix (data : ℕ → ℚ) (idx : ℕ) : Fin 4 → Fin 4 → ℚ :=
  fun r c => fetchFloat data (1 + r.val * 4 + c.val) idx

/-- a rational rgb triple, for the decoded material colors. -/
structure Q3 where
  r : ℚ
  g : ℚ
  b : ℚ

/-- GLSL-side material struct of `fetchMaterial` (18 scalars). -/
structure Material where
  ambientColor : Q3
  diffuseColor : Q3
  specularColor : Q3
  shininess : ℚ
  ior : ℚ
  useTexture : ℚ
  repeatU : ℚ
  repeatV : ℚ
  textureIndex : ℚ
  reflectiveColor : Q3

/-- the 18 scalars of a decoded `Material`, in the encoded field order. -/
def materialField (m : Material) : Fin 18 → ℚ :=
  ![m.ambientColor.r, m.ambientColor.g, m.ambientColor.b,
    m.diffuseColor.r, m.diffuseColor.g, m.diffuseColor.b,
    m.specularColor.r, m.specularColor.g, m.specularColor.b,
    m.shininess, m.ior, m.useTexture, m.repeatU, m.repeatV, m.textureIndex,
    m.reflectiveColor.r, m.reflectiveColor.g, m.reflectiveColor.b]

/-- shader-side `fetchMaterial`: reads the 18 material scalars at offsets
`base + 0 .. base + 17` with `base = 1 + 16`. -/
def fetchMaterial (data : ℕ → ℚ) (idx : ℕ) : Material :=
  let base := 1 + 16
  { ambientColor := ⟨fetchFloat data (base + 0) idx, fetchFloat data (base + 1) idx,
      fetchFloat data (base + 2) idx⟩
    diffuseColor := ⟨fetchFloat data (base + 3) idx, fetchFloat data (base + 4) idx,
      fetchFloat data (base + 5) idx⟩
    specularColor := ⟨fetchFloat data (base + 6) idx, fetchFloat data (base + 7) idx,
      fetchFloat data (base + 8) idx⟩
    shininess := fetchFloat data (base + 9) idx
    ior := fetchFloat data (base + 10) idx
    useTexture := fetchFloat data (base + 11) idx
    repeatU := fetchFloat data (base + 12) idx
    repeatV := fetchFloat data (base + 13) idx
    textureIndex := fetchFloat data (base + 14) idx
    reflectiveColor := ⟨fetchFloat data (base + 15) idx, fetchFloat data (base + 16) idx,
      fetchFloat data (base + 17) idx⟩ }

/-! ### Part B: object-space geometry of the fragment shader, over ℝ -/

noncomputable section

/-- a GLSL `vec3`. -/
structure V3 where
  x : ℝ
  y : ℝ
  z : ℝ

namespace V3

def add (u v : V3) : V3 := ⟨u.x + v.x, u.y + v.y, u.z + v.z⟩

def sub (u v : V3) : V3 := ⟨u.x - v.x, u.y - v.y, u.z - v.z⟩

def neg (v : V3) : V3 := ⟨-v.x, -v.y, -v.z⟩

def smul (a : ℝ) (v : V3) : V3 := ⟨a * v.x, a * v.y, a * v.z⟩

instance : Add V3 := ⟨V3.add⟩

instance : Sub V3 := ⟨V3.sub⟩

instance : Neg V3 := ⟨V3.neg⟩

instance : SMul ℝ V3 := ⟨V3.smul⟩

/-- GLSL `dot`. -/
def dot (u v : V3) : ℝ := u.x * v.x + u.y * v.y + u.z * v.z

/-- GLSL `length`. -/
def len (v : V3) : ℝ := Real.sqrt (dot v v)

/-- GLSL `normalize` (division by a zero length is modelled by Lean's total
division, which the shader never relies on). -/
def normalize (v : V3) : V3 := (1 / len v) • v

/-- GLSL `reflect I N = I - 2 * dot(N, I) * N`. -/
def reflect (i n : V3) : V3 := i - (2 * dot n i) • n

/-- componentwise product, as in GLSL `vec3 * vec3`. -/
def cmul (u v : V3) : V3 := ⟨u.x * v.x, u.y * v.y, u.z * v.z⟩

end V3

/-- the shader constant `EPSILON = 1e-3`. -/
def EPS : ℝ := 1e-3

/-- GLSL `clamp(x, lo, hi) = min(max(x, lo), hi)`. -/
def glClamp (x lo hi : ℝ) : ℝ := min (max x lo) hi

/-- `intersectSphere`: ray-sphere intersection in object space, sphere of
radius 0.5 centered at the origin (shaders/test.frag). -/
def intersectSphere (ro rd : V3) : ℝ :=
  let radius : ℝ := 0.5
  let A := V3.dot rd rd
  let B := 2 * V3.dot ro rd
  let C := V3.dot ro ro - radius * radius
  let disc := B * B - 4 * A * C
  if disc < 0 then -1
  else
    let sqrtDisc := Real.sqrt disc
    let t1 := (-B + sqrtDisc) / (2 * A)
    let t2 := (-B - sqrtDisc) / (2 * A)
    let tMin : ℝ := 1e20
    let tMin := if t1 > EPS then min tMin t1 else tMin
    let tMin := if t2 > EPS then min tMin t2 else tMin
    if tMin < 1e19 then tMin else -1

/-- `normalSphere`. -/
def normalSphere (hitPos : V3) : V3 := V3.normalize hitPos

/-- `intersectCube`: slab method on the unit cube (componentwise divisions by
a zero direction component are modelled by total division). -/
def intersectCube (ro rd : V3) : ℝ :=
  let tMinX := (-0.5 - ro.x) / rd.x
  let tMinY := (-0.5 - ro.y) / rd.y
  let tMinZ := (-0.5 - ro.z) / rd.z
  let tMaxX := (0.5 - ro.x) / rd.x
  let tMaxY := (0.5 - ro.y) / rd.y
  let tMaxZ := (0.5 - ro.z) / rd.z
  let t1x := min tMinX tMaxX
  let t1y := min tMinY tMaxY
  let t1z := min tMinZ tMaxZ
  let t2x := max tMinX tMaxX
  let t2y := max tMinY tMaxY
  let t2z := max tMinZ tMaxZ
  let tNear := max (max t1x t1y) t1z
  let tFar := min (min t2x t2y) t2z
  if tFar < EPS ∨ tNear > tFar then -1
  else
    let tHit := if tNear > EPS then tNear else tFar
    if tHit > EPS then tHit else -1

/-- `normalCube`: snap to the axis of largest magnitude. -/
def normalCube (p : V3) : V3 :=
  let ax := |p.x|
  let ay := |p.y|
  let az := |p.z|
  if ax ≥ ay ∧ ax ≥ az then ⟨if p.x > 0 then 1 else -1, 0, 0⟩
  else if ay ≥ ax ∧ ay ≥ az then ⟨0, if p.y > 0 then 1 else -1, 0⟩
  else ⟨0, 0, if p.z > 0 then 1 else -1⟩

/-- the quadratic coefficient `a = rd.x*rd.x + rd.z*rd.z` of
`intersectCylinder`. -/
def cylA (rd : V3) : ℝ := rd.x * rd.x + rd.z * rd.z

/-- the quadratic coefficient `b = 2 * (ro.x*rd.x + ro.z*rd.z)`. -/
def cylB (ro rd : V3) : ℝ := 2 * (ro.x * rd.x + ro.z * rd.z)

/-- the quadratic coefficient `c = ro.x*ro.x + ro.z*ro.z - radius*radius`
with `radius = 0.5`. -/
def cylC (ro : V3) : ℝ := ro.x * ro.x + ro.z * ro.z - 0.5 * 0.5

/-- the discriminant `b*b - 4*a*c` of `intersectCylinder`. -/
def cylDisc (ro rd : V3) : ℝ :=
  cylB ro rd * cylB ro rd - 4 * cylA rd * cylC ro

/-- the smaller lateral root `t1 = (-b - sqrtD) / (2*a)`. -/
def cylT1 (ro rd : V3) : ℝ :=
  (-cylB ro rd - Real.sqrt (cylDisc ro rd)) / (2 * cylA rd)

/-- the larger lateral root `t2 = (-b + sqrtD) / (2*a)`. -/
def cylT2 (ro rd : V3) : ℝ :=
  (-cylB ro rd + Real.sqrt (cylDisc ro rd)) / (2 * cylA rd)

/-- the axial coordinate `ro.y + t * rd.y` of the ray point at `t`. -/
def cylY (ro rd : V3) (t : ℝ) : ℝ := ro.y + t * rd.y

/-- the squared radial distance `x*x + z*z` of the ray point at `t`, as
computed in the cap tests of `intersectCylinder`. -/
def cylDiskSq (ro rd : V3) (t : ℝ) : ℝ :=
  (ro.x + t * rd.x) * (ro.x + t * rd.x) + (ro.z + t * rd.z) * (ro.z + t * rd.z)

/-- `validT` after the two lateral checks of `intersectCylinder`: `t1` when
it passes the epsilon and y-bounds test, else `t2` when `validT` is still
`-1` and `t2` passes, else `-1`. -/
def cylLateral (ro rd : V3) : ℝ :=
  let validT : ℝ := -1
  let validT :=
    if cylT1 ro rd > EPS ∧ cylY ro rd (cylT1 ro rd) ≥ -0.5 ∧
        cylY ro rd (cylT1 ro rd) ≤ 0.5 then cylT1 ro rd
    else validT
  if validT = -1 ∧ cylT2 ro rd > EPS ∧ cylY ro rd (cylT2 ro rd) ≥ -0.5 ∧
      cylY ro rd (cylT2 ro rd) ≤ 0.5 then cylT2 ro rd
  else validT

/-- the cap parameter `tBottom = (-radius - ro.y) / rd.y`. -/
def cylTB (ro rd : V3) : ℝ := (-0.5 - ro.y) / rd.y

/-- the cap parameter `tTop = (radius - ro.y) / rd.y`. -/
def cylTT (ro rd : V3) : ℝ := (0.5 - ro.y) / rd.y

/-- one cap test of `intersectCylinder`: take `t` over the accumulator when
`t > EPSILON`, `t` beats the accumulator (`validT == -1 || t < validT`), and
the hit lies inside the cap disk (`x*x + z*z <= 0.25`). -/
def capStep (ro rd : V3) (t acc : ℝ) : ℝ :=
  if t > EPS ∧ (acc = -1 ∨ t < acc) then
    (if cylDiskSq ro rd t ≤ 0.25 then t else acc)
  else acc

/-- `intersectCylinder`: quadratic for the lateral surface restricted to
`y ∈ [-0.5, 0.5]`, then the two cap disks; note the early return when the
discriminant is negative or `|a| < EPSILON`, and that the caps are only
tested when `|rd.y| > EPSILON` (shaders/test.frag lines 225-285). -/
def intersectCylinder (ro rd : V3) : ℝ :=
  if cylDisc ro rd < 0 ∨ |cylA rd| < EPS then -1
  else
    let validT := cylLateral ro rd
    if |rd.y| > EPS then
      capStep ro rd (cylTT ro rd) (capStep ro rd (cylTB ro rd) validT)
    else validT

/-- a candidate in the sense of the spec: a parameter `t > EPSILON` at which
the ray meets one of the three candidate surfaces — the lateral quadratic
surface restricted to `y ∈ [-0.5, 0.5]`, or one of the two planar cap disks
of radius 0.5. -/
def cylCandidate (ro rd : V3) (t : ℝ) : Prop :=
  EPS < t ∧
    ((cylDiskSq ro rd t = 0.25 ∧ cylY ro rd t ≥ -0.5 ∧ cylY ro rd t ≤ 0.5) ∨
      (cylY ro rd t = -0.5 ∧ cylDiskSq ro rd t ≤ 0.25) ∨
      (cylY ro rd t = 0.5 ∧ cylDiskSq ro rd t ≤ 0.25))

/-- invariant of the candidate accumulation in `intersectCylinder`: the
accumulator is `-1` while the processed candidate set is empty, and its
least element otherwise. -/
def scanInv (S : Set ℝ) (acc : ℝ) : Prop :=
  (acc = -1 ∧ S = ∅) ∨ (acc ∈ S ∧ ∀ t ∈ S, acc ≤ t)

/-- `normalCylinder`: cap tests first, else the lateral branch.  Note that in
the source the lateral branch computes `normalize(normal)` but discards the
result, so the returned lateral normal is the raw `(x, 0, z)`. -/
def normalCylinder (hitPos : V3) : V3 :=
  let radius : ℝ := 0.5
  let py := hitPos.y
  if |py - radius| < EPS then ⟨0, 1, 0⟩
  else if |py + radius| < EPS then ⟨0, -1, 0⟩
  else ⟨hitPos.x, 0, hitPos.z⟩

/-- the intended lateral branch of `normalCylinder`, as documented by the
source comment "Side: normal is (x, 0, z) normalized" and by the spec. -/
def normalCylinderSpec (hitPos : V3) : V3 :=
  let radius : ℝ := 0.5
  let py := hitPos.y
  if |py - radius| < EPS then ⟨0, 1, 0⟩
  else if |py + radius| < EPS then ⟨0, -1, 0⟩
  else V3.normalize ⟨hitPos.x, 0, hitPos.z⟩

/-- `intersectCone`: quadratic about the apex restricted in height, plus the
base cap. -/
def intersectCone (ro rd : V3) : ℝ :=
  let tMin0 : ℝ := 1e20
  let coneAxis : V3 := ⟨0, 1, 0⟩
  let coneApex : V3 := ⟨0, 0.5, 0⟩
  let ro1 := ro - coneApex
  let k : ℝ := 0.5
  let kSq := k * k
  let A := V3.dot rd rd - (1 + kSq) * V3.dot rd coneAxis ^ 2
  let B := 2 * (V3.dot rd ro1 - (1 + kSq) * V3.dot rd coneAxis * V3.dot ro1 coneAxis)
  let C := V3.dot ro1 ro1 - (1 + kSq) * V3.dot ro1 coneAxis ^ 2
  let disc := B * B - 4 * A * C
  let tMin :=
    if disc > 0 then
      let t1 := (-B + Real.sqrt disc) / (2 * A)
      let t2 := (-B - Real.sqrt disc) / (2 * A)
      let tMin :=
        if t1 > EPS then
          let p := ro1 + t1 • rd
          let h := V3.dot p coneAxis
          if h ≤ EPS ∧ h ≥ -1 - EPS then min tMin0 t1 else tMin0
        else tMin0
      if t2 > EPS then
        let p := ro1 + t2 • rd
        let h := V3.dot p coneAxis
        if h ≤ EPS ∧ h ≥ -1 - EPS then min tMin t2 else tMin
      else tMin
    else tMin0
  let capNorm : V3 := ⟨0, -1, 0⟩
  let capOrigin : V3 := ⟨0, -0.5, 0⟩
  let ro2 := ro1 + coneApex
  let S := V3.dot capNorm rd
  if |S| < EPS then (if tMin > EPS then tMin else -1)
  else
    let Q := V3.dot capNorm capOrigin
    let R := V3.dot capNorm ro2
    let tCap := (Q - R) / S
    if tCap ≤ EPS ∨ tCap ≥ tMin then (if tMin > EPS then tMin else -1)
    else
      let p := ro2 + tCap • rd
      let tMin :=
        if p.x * p.x + p.z * p.z ≤ kSq ∧ tCap > EPS then min tCap tMin else tMin
      if tMin > EPS then tMin else -1

/-- `normalCone`. -/
def normalCone (hitPos : V3) : V3 :=
  if |hitPos.y + 0.5| ≤ EPS then ⟨0, -1, 0⟩
  else
    let kSq : ℝ := 0.25
    let n : V3 := ⟨hitPos.x, -kSq * (hitPos.y - 0.5), hitPos.z⟩
    let l := Real.sqrt (V3.dot n n)
    if l < EPS then ⟨0, 1, 0⟩
    else (1 / l) • n

/-- a 4×4 matrix, as used for the decoded world transforms (GLSL `inverse`
is modelled by Mathlib's matrix inverse). -/
abbrev Mat4 : Type := Matrix (Fin 4) (Fin 4) ℝ

/-- `(M * vec4(p, 1.0)).xyz`: apply a mat4 to a point. -/
def xfPoint (M : Mat4) (p : V3) : V3 :=
  let v : Fin 4 → ℝ := Matrix.mulVec M ![p.x, p.y, p.z, 1]
  ⟨v 0, v 1, v 2⟩

/-- `(M * vec4(d, 0.0)).xyz`: apply a mat4 to a direction. -/
def xfDir (M : Mat4) (d : V3) : V3 :=
  let v : Fin 4 → ℝ := Matrix.mulVec M ![d.x, d.y, d.z, 0]
  ⟨v 0, v 1, v 2⟩

/-- the decoded scene as seen through the fetchers: per object row, the type
tag `fetchFloat(0, i)` and the world matrix `fetchWorldMatrix(i)` (Part A
proves the fetchers decode the encoded records). -/
structure Scene where
  count : ℕ
  objType : ℕ → ℝ
  worldMatrix : ℕ → Mat4

/-- the intersection dispatch of `traceRay`: `t` starts at `0.0` and the
`if/else if` chain only assigns it for the four known tags. -/
def traceDispatch (objectType : ℝ) (ro rd : V3) : ℝ :=
  if objectType = 0 then intersectCube ro rd
  else if objectType = 1 then intersectCylinder ro rd
  else if objectType = 2 then intersectCone ro rd
  else if objectType = 3 then intersectSphere ro rd
  else 0

/-- the intersection dispatch of `isInShadow`: `t` starts at `-1.0`. -/
def shadowDispatch (objectType : ℝ) (ro rd : V3) : ℝ :=
  if objectType = 0 then intersectCube ro rd
  else if objectType = 1 then intersectCylinder ro rd
  else if objectType = 2 then intersectCone ro rd
  else if objectType = 3 then intersectSphere ro rd
  else -1

/-- the normal dispatch of `traceRay`: `normalObj` starts at `vec3(1.0)`. -/
def normalDispatch (objectType : ℝ) (hitObj : V3) : V3 :=
  if objectType = 0 then normalCube hitObj
  else if objectType = 1 then normalCylinder hitObj
  else if objectType = 2 then normalCone hitObj
  else if objectType = 3 then normalSphere hitObj
  else ⟨1, 1, 1⟩

/-- body of one `isInShadow` loop iteration for object `i`: transform the
shadow ray into object space, dispatch by type, and when `t > EPSILON` test
whether the world-space hit distance lies strictly between `EPSILON` and
`maxDist`. -/
def shadowBlocks (scene : Scene) (shadowOrigin lightDir : V3) (maxDist : ℝ)
    (i : ℕ) : Prop :=
  let M := scene.worldMatrix i
  let invM := M⁻¹
  let roObj := xfPoint invM shadowOrigin
  let rdObj := V3.normalize (xfDir invM lightDir)
  let t := shadowDispatch (scene.objType i) roObj rdObj
  t > EPS ∧
    let hitObj := roObj + t • rdObj
    let hitWorld := xfPoint M hitObj
    let d := V3.len (hitWorld - shadowOrigin)
    d > EPS ∧ d < maxDist

/-- the shader constant `MAX_OBJECTS = 256`, the hard bound of the object
loops in `isInShadow` and `traceRay`. -/
def MAX_OBJECTS : ℕ := 256

/-- the first `n` iterations of the `isInShadow` loop (objects `0 .. n-1`,
skipping `ignoreIndex`); the boolean loop with its early `return true` is
equivalent to this disjunction. -/
def isInShadowUpTo (scene : Scene) (shadowOrigin lightDir : V3)
    (maxDist : ℝ) (ignoreIndex : ℤ) : ℕ → Prop
  | 0 => False
  | n + 1 =>
    isInShadowUpTo scene shadowOrigin lightDir maxDist ignoreIndex n ∨
      ((n : ℤ) ≠ ignoreIndex ∧ shadowBlocks scene shadowOrigin lightDir maxDist n)

/-- `isInShadow(shadowOrigin, lightDir, maxDist, ignoreIndex)`: the loop
`for (int i = 0; i < MAX_OBJECTS; i++) { if (i >= uObjectCount) break; ... }`
runs exactly `min MAX_OBJECTS uObjectCount` iterations — objects with index
`≥ MAX_OBJECTS` are never tested. -/
def isInShadow (scene : Scene) (shadowOrigin lightDir : V3) (maxDist : ℝ)
    (ignoreIndex : ℤ) : Prop :=
  isInShadowUpTo scene shadowOrigin lightDir maxDist ignoreIndex
    (min MAX_OBJECTS scene.count)

/-- the object-space parameter `t` computed for object `i` in the `traceRay`
loop. -/
def traceT (scene : Scene) (ro rd : V3) (i : ℕ) : ℝ :=
  let invM := (scene.worldMatrix i)⁻¹
  let roObj := xfPoint invM ro
  let rdObj := V3.normalize (xfDir invM rd)
  traceDispatch (scene.objType i) roObj rdObj

/-- the world-space hit point computed for object `i` in the `traceRay`
loop. -/
def traceHitWorld (scene : Scene) (ro rd : V3) (i : ℕ) : V3 :=
  let M := scene.worldMatrix i
  let invM := M⁻¹
  let roObj := xfPoint invM ro
  let rdObj := V3.normalize (xfDir invM rd)
  let t := traceDispatch (scene.objType i) roObj rdObj
  xfPoint M (roObj + t • rdObj)

/-- the world-space normal computed for object `i` in the `traceRay` loop
(`mat3(transpose(invM))` applied to the object-space normal, normalized). -/
def traceNormalWorld (scene : Scene) (ro rd : V3) (i : ℕ) : V3 :=
  let M := scene.worldMatrix i
  let invM := M⁻¹
  let roObj := xfPoint invM ro
  let rdObj := V3.normalize (xfDir invM rd)
  let t := traceDispatch (scene.objType i) roObj rdObj
  let hitObj := roObj + t • rdObj
  V3.normalize (xfDir invM.transpose (normalDispatch (scene.objType i) hitObj))

/-- the world-space distance `d = length(hitWorld - ro)` for object `i`. -/
def traceD (scene : Scene) (ro rd : V3) (i : ℕ) : ℝ :=
  V3.len (traceHitWorld scene ro rd i - ro)

/-- state of the closest-hit selection loop of `traceRay`. -/
structure TraceState where
  closestD : ℝ
  hitIndex : ℤ
  bestHitWorld : V3
  bestNormalWorld : V3

/-- one iteration of the `traceRay` selection loop: `continue` when
`t < EPSILON`, otherwise keep the hit when `d > EPSILON ∧ d < closestD`. -/
def traceStep (scene : Scene) (ro rd : V3) (s : TraceState) (i : ℕ) :
    TraceState :=
  let t := traceT scene ro rd i
  if t < EPS then s
  else
    let d := traceD scene ro rd i
    if d > EPS ∧ d < s.closestD then
      ⟨d, (i : ℤ), traceHitWorld scene ro rd i, traceNormalWorld scene ro rd i⟩
    else s

/-- the first `n` iterations of the `traceRay` selection loop (objects
`0 .. n-1`), starting from `closestD = 1e20`, `hitIndex = -1`. -/
def traceScan (scene : Scene) (ro rd : V3) : ℕ → TraceState
  | 0 => ⟨1e20, -1, ⟨0, 0, 0⟩, ⟨0, 0, 0⟩⟩
  | n + 1 => traceStep scene ro rd (traceScan scene ro rd n) n

/-- the state after the full `traceRay` selection loop: the loop header
`for (int i = 0; i < MAX_OBJECTS; ++i) { if (i >= uObjectCount) break; ... }`
runs exactly `min MAX_OBJECTS uObjectCount` iterations — objects with index
`≥ MAX_OBJECTS` are never tested. -/
def traceResult (scene : Scene) (ro rd : V3) : TraceState :=
  traceScan scene ro rd (min MAX_OBJECTS scene.count)

/-- object `i` has a valid intersection in the `traceRay` sense: the
dispatched `t` passes the `t < EPSILON → continue` test and the world-space
distance exceeds `EPSILON`. -/
def traceValid (scene : Scene) (ro rd : V3) (i : ℕ) : Prop :=
  ¬ traceT scene ro rd i < EPS ∧ traceD scene ro rd i > EPS

/-- a light as passed through the uniform arrays (type 0 = point, else
directional). -/
structure Light where
  ltype : ℤ
  color : V3
  pos : V3
  dir : V3

/-- the real-valued view of the material fields the lighting loop reads. -/
structure RMaterial where
  diffuseColor : V3
  specularColor : V3
  shininess : ℝ

/-- the pair `(L, distToLight)` assigned by the light-type branch of the
lighting loop (for a point light the division `L /= distToLight` is only
reached when `distToLight > 0`; the value below is discarded otherwise). -/
def lightLAndDist (shadowOrigin : V3) (light : Light) : V3 × ℝ :=
  if light.ltype = 0 then
    let L0 := light.pos - shadowOrigin
    let d := V3.len L0
    ((1 / d) • L0, d)
  else (-(V3.normalize light.dir), 1e20)

/-- the diffuse-plus-specular tail of the lighting loop body: Lambertian
diffuse with `max(dot(N, L), 0)`, Phong specular with the shininess clamped
to `[1, 256]`, both modulated by the light color. -/
def phongTerm (gKd gKs : ℝ) (camPos : V3) (light : Light) (mat : RMaterial)
    (hitWorld normalWorld L : V3) : V3 :=
  let dotNL := max (V3.dot normalWorld L) 0
  let diffuse := (gKd * dotNL) • mat.diffuseColor
  let Vv := V3.normalize (camPos - hitWorld)
  let R := V3.reflect (-L) normalWorld
  let dotRV := max (V3.dot R Vv) 0
  let shin := glClamp mat.shininess 1 256
  let sTerm := if dotRV > 0 then dotRV ^ shin else 0
  let specStrength := gKs * sTerm
  let specular := specStrength • mat.specularColor
  V3.cmul light.color (diffuse + specular)

open Classical in
/-- the contribution one light adds to `color` inside the `traceRay` lighting
loop; `vec3(0)` when the light is skipped by a `continue` (degenerate point
light or shadowed point). -/
def lightTerm (scene : Scene) (gKd gKs : ℝ) (camPos : V3) (light : Light)
    (mat : RMaterial) (hitWorld normalWorld : V3) (hitIndex : ℤ) : V3 :=
  let shadowOrigin := hitWorld + EPS • normalWorld
  let Lp := lightLAndDist shadowOrigin light
  let L := Lp.1
  let distToLight := Lp.2
  if light.ltype = 0 ∧ distToLight ≤ 0 then ⟨0, 0, 0⟩
  else if isInShadow scene shadowOrigin L distToLight hitIndex then ⟨0, 0, 0⟩
  else phongTerm gKd gKs camPos light mat hitWorld normalWorld L

/-! ### Part C: skeleton injection (render.js) -/

/-- the hidden matrix returned by `createCylinderMatrix` for a degenerate
bone: near-zero scale, translated to (1000, 1000, 1000), row-major. -/
def hiddenPartMatrix : Fin 16 → ℝ :=
  ![0.001, 0, 0, 1000,
    0, 0.001, 0, 1000,
    0, 0, 0.001, 1000,
    0, 0, 0, 1]

/-- the anchor-to-anchor vector `dir` of `createCylinderMatrix`. -/
def boneDir (fromPos toPos : V3) : V3 :=
  ⟨toPos.x - fromPos.x, toPos.y - fromPos.y, toPos.z - fromPos.z⟩

/-- the anchor separation `length` of `createCylinderMatrix`. -/
def boneLength (fromPos toPos : V3) : ℝ :=
  Real.sqrt ((boneDir fromPos toPos).x * (boneDir fromPos toPos).x +
    (boneDir fromPos toPos).y * (boneDir fromPos toPos).y +
    (boneDir fromPos toPos).z * (boneDir fromPos toPos).z)

/-- the raw X axis of `createCylinderMatrix`: cross product of `yAxis` with
the reference axis `[1,0,0]` when `|yAxis[0]| < 0.9`, else `[0,1,0]`, spelled
out componentwise as in the source. -/
def boneXAxis0 (yAxis : V3) : V3 :=
  if |yAxis.x| < 0.9 then
    ⟨yAxis.y * 0 - yAxis.z * 0, yAxis.z * 1 - yAxis.x * 0,
      yAxis.x * 0 - yAxis.y * 1⟩
  else
    ⟨yAxis.y * 0 - yAxis.z * 1, yAxis.z * 0 - yAxis.x * 0,
      yAxis.x * 1 - yAxis.y * 0⟩

/-- the length `xLen` of the raw X axis. -/
def boneXLen (x0 : V3) : ℝ :=
  Real.sqrt (x0.x * x0.x + x0.y * x0.y + x0.z * x0.z)

/-- the Z axis: cross product of `xAxis` and `yAxis`. -/
def boneZAxis (xAxis yAxis : V3) : V3 :=
  ⟨xAxis.y * yAxis.z - xAxis.z * yAxis.y,
    xAxis.z * yAxis.x - xAxis.x * yAxis.z,
    xAxis.x * yAxis.y - xAxis.y * yAxis.x⟩

/-- the midpoint of the two anchors. -/
def boneCenter (fromPos toPos : V3) : V3 :=
  ⟨(fromPos.x + toPos.x) / 2, (fromPos.y + toPos.y) / 2,
    (fromPos.z + toPos.z) / 2⟩

/-- the assembled row-major `T * R * S` bone matrix of
`createCylinderMatrix`. -/
def boneAssemble (xAxis yAxis zAxis center : V3)
    (radius heightScale length : ℝ) : Fin 16 → ℝ :=
  ![xAxis.x * radius, yAxis.x * (length / 2 * heightScale), zAxis.x * radius, center.x,
    xAxis.y * radius, yAxis.y * (length / 2 * heightScale), zAxis.y * radius, center.y,
    xAxis.z * radius, yAxis.z * (length / 2 * heightScale), zAxis.z * radius, center.z,
    0, 0, 0, 1]

/-- `createCylinderMatrix(fromPos, toPos, radius, heightScale)` from
`updatePoseObjects` (the JS defaults are `radius = 0.05`,
`heightScale = 1.5`; call sites are modelled with explicit arguments).
Returns the 16 row-major floats of the bone transform. -/
def createCylinderMatrix (fromPos toPos : V3) (radius heightScale : ℝ) :
    Fin 16 → ℝ :=
  let dir := boneDir fromPos toPos
  let length := boneLength fromPos toPos
  if length < 0.001 then hiddenPartMatrix
  else
    let yAxis : V3 := ⟨dir.x / length, dir.y / length, dir.z / length⟩
    let xAxis0 := boneXAxis0 yAxis
    let xLen := boneXLen xAxis0
    let xAxis : V3 :=
      if xLen > 0.001 then ⟨xAxis0.x / xLen, xAxis0.y / xLen, xAxis0.z / xLen⟩
      else ⟨1, 0, 0⟩
    boneAssemble xAxis yAxis (boneZAxis xAxis yAxis)
      (boneCenter fromPos toPos) radius heightScale length

/-- division that refuses a zero denominator; used to state that
`createCylinderMatrix` never divides by zero (the float-free surrogate for
"no NaN/Inf"). -/
def checkedDiv (a b : ℝ) : Option ℝ := if b = 0 then none else some (a / b)

/-- square root that refuses a negative argument. -/
def checkedSqrt (a : ℝ) : Option ℝ := if 0 ≤ a then some (Real.sqrt a) else none

/-- `createCylinderMatrix` with every division and square root routed through
the checked partial operations: `none` would mean a division by zero or a
negative radicand somewhere in the evaluation. -/
def createCylinderMatrixChecked (fromPos toPos : V3) (radius heightScale : ℝ) :
    Option (Fin 16 → ℝ) := do
  let dir := boneDir fromPos toPos
  let length ← checkedSqrt (dir.x * dir.x + dir.y * dir.y + dir.z * dir.z)
  if length < 0.001 then pure hiddenPartMatrix
  else do
    let yx ← checkedDiv dir.x length
    let yy ← checkedDiv dir.y length
    let yz ← checkedDiv dir.z length
    let yAxis : V3 := ⟨yx, yy, yz⟩
    let xAxis0 := boneXAxis0 yAxis
    let xLen ← checkedSqrt (xAxis0.x * xAxis0.x + xAxis0.y * xAxis0.y +
      xAxis0.z * xAxis0.z)
    let xAxis ←
      if xLen > 0.001 then do
        let px ← checkedDiv xAxis0.x xLen
        let py ← checkedDiv xAxis0.y xLen
        let pz ← checkedDiv xAxis0.z xLen
        pure (⟨px, py, pz⟩ : V3)
      else pure (⟨1, 0, 0⟩ : V3)
    pure (boneAssemble xAxis yAxis (boneZAxis xAxis yAxis)
      (boneCenter fromPos toPos) radius heightScale length)

/-- one MediaPipe landmark as consumed by `landmarkToPos` (only the spatial
coordinates are read). -/
structure Landmark where
  x : ℝ
  y : ℝ
  z : ℝ

/-- one detected pose: its normalized landmark list and the optional
world-space list (`none` entries model null landmarks). -/
structure Pose where
  landmarks : List (Option Landmark)
  worldLandmarks : List (Option Landmark)

/-- the pose-data record delivered by the pose receiver. -/
structure PoseData where
  poses : List Pose

/-- the renderer state `updatePoseObjects` touches: the skeleton sub-region
of the GPU scene texture and the host-side `poseDataArray` (both `none`
until `createSceneDataTexture` allocates them). -/
structure PoseState where
  sceneTexture : Option (ℕ → ℝ)
  poseDataArray : Option (ℕ → ℝ)

/-- the landmark list chosen by `updatePoseObjects`: world landmarks when
present, otherwise the normalized ones. -/
def chosenLandmarks (p : Pose) : List (Option Landmark) :=
  if p.worldLandmarks.length > 0 then p.worldLandmarks else p.landmarks

/-- `landmarkToPos`: scale/mirror a landmark into scene coordinates, hidden
position for a null landmark. -/
def landmarkToPos (useWorld : Bool) (lm : Option Landmark) : V3 :=
  match lm with
  | none => ⟨1000, 1000, 1000⟩
  | some l =>
    if useWorld then ⟨-l.x * 2, -l.y * 2 + 1.5, -l.z * 2⟩
    else ⟨(l.x - 0.5) * 4, -(l.y - 0.5) * 4 + 1.5, -l.z * 4⟩

/-- an anchor of a skeleton part: a single landmark index, or the average of
two (the JS code passes either a number or an array of numbers). -/
inductive Anchor
  | one (i : ℕ)
  | avg (i j : ℕ)

/-- `getLandmark` on a single index. -/
def getLandmarkOne (useWorld : Bool) (lms : List (Option Landmark)) (idx : ℕ) :
    V3 :=
  if h : idx < lms.length then landmarkToPos useWorld (lms.get ⟨idx, h⟩)
  else ⟨1000, 1000, 1000⟩

/-- one contribution of the averaging branch of `getLandmark` (skipped when
the index is out of range or the landmark is null). -/
def avgContrib (useWorld : Bool) (lms : List (Option Landmark)) (i : ℕ) :
    Option V3 :=
  if h : i < lms.length then
    match lms.get ⟨i, h⟩ with
    | none => none
    | some l => some (landmarkToPos useWorld (some l))
  else none

/-- `getLandmark` on an index array of two entries: average of the present
contributions, hidden position when both are missing. -/
def getLandmarkAvg (useWorld : Bool) (lms : List (Option Landmark)) (i j : ℕ) :
    V3 :=
  match avgContrib useWorld lms i, avgContrib useWorld lms j with
  | none, none => ⟨1000, 1000, 1000⟩
  | some p, none => p
  | none, some q => q
  | some p, some q => ⟨(p.x + q.x) / 2, (p.y + q.y) / 2, (p.z + q.z) / 2⟩

/-- `getLandmark` dispatch on the anchor shape. -/
def getLandmark (useWorld : Bool) (lms : List (Option Landmark)) :
    Anchor → V3
  | .one i => getLandmarkOne useWorld lms i
  | .avg i j => getLandmarkAvg useWorld lms i j

/-- the four skeleton part kinds of `skeletonStructure`. -/
inductive PartType
  | head
  | torso
  | joint
  | bone
deriving DecidableEq

/-- Modelled from the spec: `SceneDataStructures.js` (defining
`PrimitiveType`) is not among the given sources; the shader dispatch fixes
the tags 0 = cube, 1 = cylinder, 2 = cone, 3 = sphere. -/
def SHAPE_SPHERE : ℝ := 3

/-- Modelled from the spec: cylinder tag, see `SHAPE_SPHERE`. -/
def SHAPE_CYLINDER : ℝ := 1

/-- one entry of `skeletonStructure`: part kind, primitive tag, and its
anchor landmarks (`a` is `landmark`/`from`, `b` is `to`; `b` is unused for
sphere parts). -/
structure SkelPart where
  ptype : PartType
  primitive : ℝ
  a : Anchor
  b : Anchor

/-- the 22-part `skeletonStructure` of the renderer: 1 head sphere, 1 torso
cylinder, 12 joint spheres, 8 bone cylinders. -/
def skeletonStructure : List SkelPart :=
  [⟨.head, SHAPE_SPHERE, .one 0, .one 0⟩,
   ⟨.torso, SHAPE_CYLINDER, .avg 23 24, .avg 11 12⟩,
   ⟨.joint, SHAPE_SPHERE, .one 11, .one 11⟩,
   ⟨.joint, SHAPE_SPHERE, .one 13, .one 13⟩,
   ⟨.joint, SHAPE_SPHERE, .one 15, .one 15⟩,
   ⟨.joint, SHAPE_SPHERE, .one 12, .one 12⟩,
   ⟨.joint, SHAPE_SPHERE, .one 14, .one 14⟩,
   ⟨.joint, SHAPE_SPHERE, .one 16, .one 16⟩,
   ⟨.joint, SHAPE_SPHERE, .one 23, .one 23⟩,
   ⟨.joint, SHAPE_SPHERE, .one 25, .one 25⟩,
   ⟨.joint, SHAPE_SPHERE, .one 27, .one 27⟩,
   ⟨.joint, SHAPE_SPHERE, .one 24, .one 24⟩,
   ⟨.joint, SHAPE_SPHERE, .one 26, .one 26⟩,
   ⟨.joint, SHAPE_SPHERE, .one 28, .one 28⟩,
   ⟨.bone, SHAPE_CYLINDER, .one 11, .one 13⟩,
   ⟨.bone, SHAPE_CYLINDER, .one 13, .one 15⟩,
   ⟨.bone, SHAPE_CYLINDER, .one 12, .one 14⟩,
   ⟨.bone, SHAPE_CYLINDER, .one 14, .one 16⟩,
   ⟨.bone, SHAPE_CYLINDER, .one 23, .one 25⟩,
   ⟨.bone, SHAPE_CYLINDER, .one 25, .one 27⟩,
   ⟨.bone, SHAPE_CYLINDER, .one 24, .one 26⟩,
   ⟨.bone, SHAPE_CYLINDER, .one 26, .one 28⟩]

/-- fallback part, never reached for indices below 22. -/
def defaultPart : SkelPart := ⟨.joint, SHAPE_SPHERE, .one 0, .one 0⟩

/-- `skeletonStructure[i]`. -/
def skelPart (i : ℕ) : SkelPart := skeletonStructure.getD i defaultPart

/-- the transform written for one skeleton part by `updatePoseObjects`
(row-major, 16 floats): uniform scale + translation for head (scale
`0.24 * 3.0`) and joints (scale `0.24`), `createCylinderMatrix` with radius
`0.16 * 4.0` and height scale `2.0` for the torso, and radius `0.05 * 2.0`
with the default height scale `1.5` for bones. -/
def partMatrix (useWorld : Bool) (lms : List (Option Landmark))
    (part : SkelPart) : Fin 16 → ℝ :=
  match part.ptype with
  | .head =>
    let pos := getLandmark useWorld lms part.a
    let scale : ℝ := 0.24 * 3.0
    ![scale, 0, 0, pos.x, 0, scale, 0, pos.y, 0, 0, scale, pos.z, 0, 0, 0, 1]
  | .joint =>
    let pos := getLandmark useWorld lms part.a
    let scale : ℝ := 0.24
    ![scale, 0, 0, pos.x, 0, scale, 0, pos.y, 0, 0, scale, pos.z, 0, 0, 0, 1]
  | .torso =>
    createCylinderMatrix (getLandmark useWorld lms part.a)
      (getLandmark useWorld lms part.b) (0.16 * 4.0) 2.0
  | .bone =>
    createCylinderMatrix (getLandmark useWorld lms part.a)
      (getLandmark useWorld lms part.b) (0.05 * 2.0) 1.5

/-- the posed diffuse color written by `updatePoseObjects`, by part kind. -/
def posedDiffuse : PartType → V3
  | .head => ⟨1, 1, 0⟩
  | .torso => ⟨0.6, 0.6, 0.6⟩
  | .joint => ⟨1, 0, 0⟩
  | .bone => ⟨0, 1, 1⟩

/-- the default diffuse color written by `initializePoseObjects`, by part
kind. -/
def initDiffuse : PartType → V3
  | .head => ⟨1, 0.8, 0.6⟩
  | .torso => ⟨0.2, 0.4, 0.8⟩
  | .joint => ⟨0.9, 0.9, 0.9⟩
  | .bone => ⟨0.6, 0.6, 0.6⟩

/-- the 18 material scalars written for one part by `updatePoseObjects`
(`k` is the offset from `matOffset`): ambient 0.2, diffuse by part kind,
specular 0.5, shininess 30, ior 1, no texture, repeat (1,1), texture index 0,
reflective 0. -/
def posedMaterial (t : PartType) (k : ℕ) : ℝ :=
  if k < 3 then 0.2
  else if k = 3 then (posedDiffuse t).x
  else if k = 4 then (posedDiffuse t).y
  else if k = 5 then (posedDiffuse t).z
  else if k < 9 then 0.5
  else if k = 9 then 30
  else if k = 10 then 1
  else if k = 11 then 0
  else if k = 12 then 1
  else if k = 13 then 1
  else 0

/-- the writes of one iteration of the `updatePoseObjects` part loop: type
tag at `offset`, row-major matrix at `offset+1 .. offset+16`, and the 18
material scalars at `offset+17 .. offset+34`, with `offset = i *
floatsPerRow`. -/
def writePart (useWorld : Bool) (lms : List (Option Landmark)) (i : ℕ)
    (arr : ℕ → ℝ) : ℕ → ℝ := fun n =>
  let offset := i * floatsPerRow
  if n = offset then (skelPart i).primitive
  else if h : offset + 1 ≤ n ∧ n < offset + 17 then
    partMatrix useWorld lms (skelPart i) ⟨n - offset - 1, by omega⟩
  else if offset + 17 ≤ n ∧ n < offset + 35 then
    posedMaterial (skelPart i).ptype (n - offset - 17)
  else arr n

/-- the `updatePoseObjects` part loop over parts `0 .. k-1`. -/
def writeSkeletonAux (useWorld : Bool) (lms : List (Option Landmark)) :
    ℕ → (ℕ → ℝ) → ℕ → ℝ
  | 0, arr => arr
  | k + 1, arr => writePart useWorld lms k (writeSkeletonAux useWorld lms k arr)

/-- `updatePoseObjects(poseData)`: early return on missing/empty pose data,
unallocated texture or pose array, or fewer than 33 landmarks; otherwise
rewrite all 22 parts of `poseDataArray` and upload the skeleton sub-region
(`texSubImage2D` copies the whole `poseDataArray` into the skeleton rows of
the scene texture). -/
def updatePoseObjects (s : PoseState) (pd : Option PoseData) : PoseState :=
  match pd with
  | none => s
  | some data =>
    match data.poses with
    | [] => s
    | pose :: _ =>
      match s.sceneTexture, s.poseDataArray with
      | some _, some arr0 =>
        let landmarks := chosenLandmarks pose
        if landmarks.length < 33 then s
        else
          let useWorld := pose.worldLandmarks.length > 0
          let arr := writeSkeletonAux useWorld landmarks 22 arr0
          { sceneTexture := some arr, poseDataArray := some arr }
      | _, _ => s

/-- the value `updatePoseObjects` writes at column `off` of skeleton row `i`
(type tag at 0, row-major matrix entry at 1..16, material scalar at
17..34). -/
def posedCell (useWorld : Bool) (lms : List (Option Landmark))
    (i off : ℕ) : ℝ :=
  if off = 0 then (skelPart i).primitive
  else if h : 1 ≤ off ∧ off < 17 then
    partMatrix useWorld lms (skelPart i) ⟨off - 1, by omega⟩
  else posedMaterial (skelPart i).ptype (off - 17)

/-- a full 33-landmark frame used as witness input. -/
def testLandmarks : List (Option Landmark) := List.replicate 33 (some ⟨0, 0, 0⟩)

/-- a concrete world-landmark pose used as witness input. -/
def testPose : Pose := ⟨[], testLandmarks⟩

/-- a concrete pose-data record used as witness input. -/
def testPoseData : PoseData := ⟨[testPose]⟩

/-- a renderer state with allocated texture and pose array, used as witness
input. -/
def testPoseState : PoseState := ⟨some fun _ => 0, some fun _ => 0⟩

end

/-- a concrete scene object used as witness input. -/
def testObject : SceneObject :=
  ⟨3, fun r c => (r.val * 4 + c.val : ℚ), fun k => (k.val : ℚ) + 100⟩

/-- a concrete one-object scene (a sphere with the identity world matrix)
used as witness input. -/
noncomputable def testScene : Scene := ⟨1, fun _ => 3, fun _ => 1⟩

/-- a 257-object scene whose only occluder is the sphere at index 256 — one
object past the `MAX_OBJECTS` loop bound (all other objects carry type tag 4,
which both dispatches skip); all transforms are the identity. -/
noncomputable def scene257 : Scene :=
  ⟨257, fun i => if i = 256 then 3 else 4, fun _ => 1⟩

/-- a point light at (0, 0, -2) with white color. -/
noncomputable def light257 : Light := ⟨0, ⟨1, 1, 1⟩, ⟨0, 0, -2⟩, ⟨0, 0, 0⟩⟩

/-- a material with red diffuse. -/
noncomputable def mat257 : RMaterial := ⟨⟨1, 0, 0⟩, ⟨1, 1, 1⟩, 30⟩

/-- a shading point whose shadow origin (after the `EPSILON` normal offset)
is (0, 0, 2). -/
noncomputable def hit257 : V3 := ⟨0, 0, 2 + 1e-3⟩

/-- a 257-object scene with a cone at index 0 (hit distance 7/4 on the test
ray) and a strictly nearer sphere at index 256, one object past the
`MAX_OBJECTS` loop bound; all other objects carry the skipped type tag 4 and
all transforms are the identity. -/
noncomputable def scene257b : Scene :=
  ⟨257, fun i => if i = 0 then 2 else if i = 256 then 3 else 4, fun _ => 1⟩

/-! ### Codec lemmas and claim C1 -/

theorem fetchFloat_eq (data : ℕ → ℚ) (idx row : ℕ) :
    fetchFloat data idx row = data (row * floatsPerRow + idx) := by
  have hW : floatsPerRow = 36 := rfl
  simp only [fetchFloat, texelFetch, hW]
  split_ifs with h1 h2 h3 <;> (congr 1) <;> omega

theorem createSceneData_at (objs : List SceneObject) (i k : ℕ)
    (hi : i < objs.length) (hk : k < floatsPerObject) :
    createSceneData objs (i * floatsPerRow + k) =
      flattenObject (objs.get ⟨i, hi⟩) k := by
  have hW : floatsPerRow = 36 := rfl
  have hO : floatsPerObject = 35 := rfl
  rw [hO] at hk
  have h1 : (i * floatsPerRow + k) / floatsPerRow = i := by rw [hW]; omega
  have h2 : (i * floatsPerRow + k) % floatsPerRow = k := by rw [hW]; omega
  simp only [createSceneData, h1, h2]
  rw [dif_pos ⟨hi, by rw [hO]; omega⟩]

theorem decode_fetch (objs : List SceneObject) (i k : ℕ)
    (hi : i < objs.length) (hk : k < floatsPerObject) :
    fetchFloat (createSceneData objs) k i =
      flattenObject (objs.get ⟨i, hi⟩) k := by
  rw [fetchFloat_eq, createSceneData_at objs i k hi hk]

theorem decode_material (objs : List SceneObject) (i : ℕ) (o : SceneObject)
    (hi : i < objs.length) (hg : objs.get ⟨i, hi⟩ = o) (k : ℕ) (hk : k < 18) :
    fetchFloat (createSceneData objs) (17 + k) i = o.material ⟨k, hk⟩ := by
  have hO : floatsPerObject = 35 := rfl
  rw [decode_fetch objs i (17 + k) hi (by rw [hO]; omega), hg, flattenObject]
  rw [if_neg (by omega), dif_neg (by omega), dif_pos (by omega)]
  exact congrArg _ (Fin.ext (by simp only [Fin.val_mk]; omega))

/-- C1: round-trip of the Scene Buffer codec — for every record `i` written
by the host-side encoder (type tag at offset 0, 16 row-major world-matrix
floats at offsets 1..16, 18 material scalars at offsets 17..34), the
shader-side readers `fetchFloat` / `fetchWorldMatrix` / `fetchMaterial`
reproduce the same primitive type, the same 4×4 transform (after the
documented row-major-to-column-major transpose), and the same 18 material
fields. -/
theorem claim1_sceneBuffer_roundtrip (objs : List SceneObject) (i : ℕ)
    (o : SceneObject) (ho : objs[i]? = some o) :
    fetchFloat (createSceneData objs) 0 i = o.primitiveType ∧
    fetchWorldMatrix (createSceneData objs) i = o.worldMatrix ∧
    ∀ k : Fin 18,
      materialField (fetchMaterial (createSceneData objs) i) k =
        o.material k := by
  have hO : floatsPerObject = 35 := rfl
  obtain ⟨hi, hv⟩ := List.getElem?_eq_some_iff.mp ho
  have hg : objs.get ⟨i, hi⟩ = o := by simpa [List.get_eq_getElem] using hv
  refine ⟨?_, ?_, ?_⟩
  · have h := decode_fetch objs i 0 hi (by rw [hO]; omega)
    rw [hg] at h
    rw [h]
    rfl
  · funext r c
    have hr := r.isLt
    have hc := c.isLt
    have h := decode_fetch objs i (1 + r.val * 4 + c.val) hi (by rw [hO]; omega)
    rw [hg] at h
    simp only [fetchWorldMatrix]
    rw [h, flattenObject, if_neg (by omega), dif_pos (by omega)]
    have e1 : (⟨(1 + r.val * 4 + c.val - 1) / 4, by omega⟩ : Fin 4) = r :=
      Fin.ext (by simp only [Fin.val_mk]; omega)
    have e2 : (⟨(1 + r.val * 4 + c.val - 1) % 4, by omega⟩ : Fin 4) = c :=
      Fin.ext (by simp only [Fin.val_mk]; omega)
    rw [e1, e2]
  · intro k
    fin_cases k <;>
      simp only [materialField, fetchMaterial, Matrix.cons_val_zero,
        Matrix.cons_val_one, Matrix.head_cons, Matrix.cons_val_two,
        Matrix.tail_cons, Matrix.cons_val_three, Matrix.cons_val_four,
        Matrix.cons_val_succ, Fin.mk_zero, Fin.mk_one] <;>
      first
      | exact decode_material objs i o hi hg 0 (by omega)
      | exact decode_material objs i o hi hg 1 (by omega)
      | exact decode_material objs i o hi hg 2 (by omega)
      | exact decode_material objs i o hi hg 3 (by omega)
      | exact decode_material objs i o hi hg 4 (by omega)
      | exact decode_material objs i o hi hg 5 (by omega)
      | exact decode_material objs i o hi hg 6 (by omega)
      | exact decode_material objs i o hi hg 7 (by omega)
      | exact decode_material objs i o hi hg 8 (by omega)
      | exact decode_material objs i o hi hg 9 (by omega)
      | exact decode_material objs i o hi hg 10 (by omega)
      | exact decode_material objs i o hi hg 11 (by omega)
      | exact decode_material objs i o hi hg 12 (by omega)
      | exact decode_material objs i o hi hg 13 (by omega)
      | exact decode_material objs i o hi hg 14 (by omega)
      | exact decode_material objs i o hi hg 15 (by omega)
      | exact decode_material objs i o hi hg 16 (by omega)
      | exact decode_material objs i o hi hg 17 (by omega)

/-- C1 witness: the round-trip instantiated at a one-object scene. -/
theorem claim1_sceneBuffer_roundtrip_witness :
    (([testObject] : List SceneObject)[0]? = some testObject) ∧
    (fetchFloat (createSceneData [testObject]) 0 0 = testObject.primitiveType ∧
     fetchWorldMatrix (createSceneData [testObject]) 0 = testObject.worldMatrix ∧
     ∀ k : Fin 18,
       materialField (fetchMaterial (createSceneData [testObject]) 0) k =
         testObject.material k) :=
  ⟨rfl, claim1_sceneBuffer_roundtrip [testObject] 0 testObject rfl⟩

/-! ### Claims C2 (dispatch on unknown type tags) and C4 (cylinder normal) -/

theorem intersectSphere_eval :
    intersectSphere ⟨0, 0, 2⟩ ⟨0, 0, -1⟩ = 3 / 2 := by
  simp only [intersectSphere, V3.dot]
  norm_num [EPS, min_def, Real.sqrt_one]

/-- C2 counterexample: an object with the unknown type tag 4 is not
intersected as a sphere — the `traceRay` dispatch leaves `t = 0.0` (which the
`t < EPSILON` test then skips) and the `isInShadow` dispatch leaves
`t = -1.0`, while the sphere intersector would report a hit at `t = 3/2` for
this ray. -/
theorem claim2_unknown_type_counterexample :
    traceDispatch 4 ⟨0, 0, 2⟩ ⟨0, 0, -1⟩ = 0 ∧
    shadowDispatch 4 ⟨0, 0, 2⟩ ⟨0, 0, -1⟩ = -1 ∧
    intersectSphere ⟨0, 0, 2⟩ ⟨0, 0, -1⟩ = 3 / 2 ∧
    traceDispatch 4 ⟨0, 0, 2⟩ ⟨0, 0, -1⟩ ≠ intersectSphere ⟨0, 0, 2⟩ ⟨0, 0, -1⟩ := by
  have hs := intersectSphere_eval
  refine ⟨by norm_num [traceDispatch], by norm_num [shadowDispatch], hs, ?_⟩
  rw [hs]
  norm_num [traceDispatch]

/-- C2 amended: for every object whose encoded primitive-type tag is not one
of the four known values, the dispatch in `traceRay` leaves `t = 0.0` and the
dispatch in `isInShadow` leaves `t = -1.0`, so the object is skipped (it can
neither register a hit nor occlude a shadow ray) — there is no sphere-like
fallback and no distinct error path. -/
theorem claim2_unknown_type_skipped (ty : ℝ) (h0 : ty ≠ 0) (h1 : ty ≠ 1)
    (h2 : ty ≠ 2) (h3 : ty ≠ 3) :
    (∀ ro rd : V3, traceDispatch ty ro rd = 0 ∧ shadowDispatch ty ro rd = -1) ∧
    (∀ (scene : Scene) (ro rd : V3) (s : TraceState) (i : ℕ),
      scene.objType i = ty → traceStep scene ro rd s i = s) ∧
    (∀ (scene : Scene) (origin L : V3) (maxDist : ℝ) (i : ℕ),
      scene.objType i = ty → ¬ shadowBlocks scene origin L maxDist i) := by
  have hdisp : ∀ ro rd : V3, traceDispatch ty ro rd = 0 := fun ro rd => by
    simp only [traceDispatch, if_neg h0, if_neg h1, if_neg h2, if_neg h3]
  have hdisp2 : ∀ ro rd : V3, shadowDispatch ty ro rd = -1 := fun ro rd => by
    simp only [shadowDispatch, if_neg h0, if_neg h1, if_neg h2, if_neg h3]
  refine ⟨fun ro rd => ⟨hdisp ro rd, hdisp2 ro rd⟩, ?_, ?_⟩
  · intro scene ro rd s i hty
    have ht : traceT scene ro rd i = 0 := by
      simp only [traceT, hty]
      exact hdisp _ _
    simp only [traceStep, ht]
    rw [if_pos (by norm_num [EPS])]
  · intro scene origin L maxDist i hty
    intro hb
    have ht : shadowDispatch (scene.objType i)
        (xfPoint (scene.worldMatrix i)⁻¹ origin)
        (V3.normalize (xfDir (scene.worldMatrix i)⁻¹ L)) = -1 := by
      rw [hty]
      exact hdisp2 _ _
    have := hb.1
    rw [ht] at this
    have hEps : (0 : ℝ) < EPS := by norm_num [EPS]
    linarith

/-- C2 amended witness: instantiated at the unknown tag 4. -/
theorem claim2_unknown_type_skipped_witness :
    ((4 : ℝ) ≠ 0 ∧ (4 : ℝ) ≠ 1 ∧ (4 : ℝ) ≠ 2 ∧ (4 : ℝ) ≠ 3) ∧
    ((∀ ro rd : V3, traceDispatch 4 ro rd = 0 ∧ shadowDispatch 4 ro rd = -1) ∧
     (∀ (scene : Scene) (ro rd : V3) (s : TraceState) (i : ℕ),
       scene.objType i = 4 → traceStep scene ro rd s i = s) ∧
     (∀ (scene : Scene) (origin L : V3) (maxDist : ℝ) (i : ℕ),
       scene.objType i = 4 → ¬ shadowBlocks scene origin L maxDist i)) :=
  ⟨⟨by norm_num, by norm_num, by norm_num, by norm_num⟩,
    claim2_unknown_type_skipped 4 (by norm_num) (by norm_num) (by norm_num)
      (by norm_num)⟩

/-- C4 (code bug): at the lateral hit point (0.5, 0, 0) the shipped
`normalCylinder` returns the raw radial vector (0.5, 0, 0), whose squared
length is 1/4 rather than 1 — the `normalize(normal)` result is discarded in
the source, while the code's own comment ("Side: normal is (x, 0, z)
normalized") and the claim ask for the unit vector, which the intended
variant `normalCylinderSpec` indeed returns as (1, 0, 0). -/
theorem claim4_normalCylinder_not_normalized :
    normalCylinder ⟨0.5, 0, 0⟩ = ⟨0.5, 0, 0⟩ ∧
    V3.dot (normalCylinder ⟨0.5, 0, 0⟩) (normalCylinder ⟨0.5, 0, 0⟩) = 1 / 4 ∧
    normalCylinderSpec ⟨0.5, 0, 0⟩ = ⟨1, 0, 0⟩ := by
  have hval : normalCylinder ⟨0.5, 0, 0⟩ = ⟨0.5, 0, 0⟩ := by
    simp only [normalCylinder]
    rw [if_neg (by norm_num [EPS, le_abs]),
      if_neg (by norm_num [EPS, le_abs])]
  refine ⟨hval, by rw [hval]; norm_num [V3.dot], ?_⟩
  simp only [normalCylinderSpec]
  rw [if_neg (by norm_num [EPS, le_abs]),
    if_neg (by norm_num [EPS, le_abs])]
  have hl : V3.len ⟨0.5, 0, 0⟩ = 0.5 := by
    simp only [V3.len, V3.dot]
    rw [show (0.5 : ℝ) * 0.5 + 0 * 0 + 0 * 0 = 0.5 ^ 2 by norm_num]
    exact Real.sqrt_sq (by norm_num)
  simp only [V3.normalize, hl]
  show V3.smul _ _ = _
  simp only [V3.smul]
  norm_num

/-! ### Claim C3: cylinder intersection returns the nearest valid candidate -/

theorem cylDiskSq_sub (ro rd : V3) (t : ℝ) :
    cylDiskSq ro rd t - 0.25 =
      cylA rd * (t * t) + cylB ro rd * t + cylC ro := by
  simp only [cylDiskSq, cylA, cylB, cylC]
  ring

theorem cyl_root_iff (ro rd : V3) (ha : cylA rd ≠ 0)
    (hd : 0 ≤ cylDisc ro rd) (t : ℝ) :
    cylDiskSq ro rd t = 0.25 ↔ t = cylT2 ro rd ∨ t = cylT1 ro rd := by
  have hdiscrim : discrim (cylA rd) (cylB ro rd) (cylC ro) =
      Real.sqrt (cylDisc ro rd) * Real.sqrt (cylDisc ro rd) := by
    rw [Real.mul_self_sqrt hd, discrim, cylDisc]
    ring
  have h := quadratic_eq_zero_iff ha hdiscrim t
  have hsub := cylDiskSq_sub ro rd t
  constructor
  · intro hq
    have h0 : cylA rd * (t * t) + cylB ro rd * t + cylC ro = 0 := by linarith
    exact (h.mp h0).imp (fun h1 => by rw [cylT2]; exact h1)
      (fun h2 => by rw [cylT1]; exact h2)
  · intro ht
    have h0 : cylA rd * (t * t) + cylB ro rd * t + cylC ro = 0 :=
      h.mpr (ht.imp (fun h1 => by rw [cylT2] at h1; exact h1)
        (fun h2 => by rw [cylT1] at h2; exact h2))
    linarith

theorem cyl_no_root (ro rd : V3) (ha : 0 < cylA rd) (hd : cylDisc ro rd < 0)
    (t : ℝ) : 0.25 < cylDiskSq ro rd t := by
  have hsub := cylDiskSq_sub ro rd t
  have hkey : cylDisc ro rd = (2 * cylA rd * t + cylB ro rd) ^ 2 -
      4 * cylA rd * (cylA rd * (t * t) + cylB ro rd * t + cylC ro) := by
    rw [cylDisc]
    ring
  nlinarith [sq_nonneg (2 * cylA rd * t + cylB ro rd)]

theorem cylT1_le_cylT2 (ro rd : V3) (ha : 0 < cylA rd) :
    cylT1 ro rd ≤ cylT2 ro rd := by
  have h2a : 0 < 2 * cylA rd := by linarith
  rw [cylT1, cylT2, div_le_div_iff₀ h2a h2a]
  nlinarith [Real.sqrt_nonneg (cylDisc ro rd)]

theorem cylY_TB (ro rd : V3) (h : rd.y ≠ 0) :
    cylY ro rd (cylTB ro rd) = -0.5 := by
  rw [cylY, cylTB, div_mul_cancel₀ _ h]
  ring

theorem cylY_TT (ro rd : V3) (h : rd.y ≠ 0) :
    cylY ro rd (cylTT ro rd) = 0.5 := by
  rw [cylY, cylTT, div_mul_cancel₀ _ h]
  ring

theorem cylY_eq_TB (ro rd : V3) (h : rd.y ≠ 0) (t : ℝ)
    (ht : cylY ro rd t = -0.5) : t = cylTB ro rd := by
  rw [cylTB, eq_div_iff h]
  rw [cylY] at ht
  linarith

theorem cylY_eq_TT (ro rd : V3) (h : rd.y ≠ 0) (t : ℝ)
    (ht : cylY ro rd t = 0.5) : t = cylTT ro rd := by
  rw [cylTT, eq_div_iff h]
  rw [cylY] at ht
  linarith

theorem capStep_inv (ro rd : V3) (S : Set ℝ) (acc t : ℝ)
    (hS : ∀ s ∈ S, EPS < s) (h : scanInv S acc) :
    scanInv (S ∪ {s | s = t ∧ EPS < t ∧ cylDiskSq ro rd t ≤ 0.25})
      (capStep ro rd t acc) := by
  have hEps : (0 : ℝ) < EPS := by norm_num [EPS]
  rw [capStep]
  by_cases hc : t > EPS ∧ (acc = -1 ∨ t < acc)
  · rw [if_pos hc]
    by_cases hdisk : cylDiskSq ro rd t ≤ 0.25
    · rw [if_pos hdisk]
      right
      refine ⟨Or.inr ⟨rfl, hc.1, hdisk⟩, ?_⟩
      rintro s (hsS | ⟨rfl, -, -⟩)
      · rcases h with ⟨-, hemp⟩ | ⟨hmem, hlb⟩
        · rw [hemp] at hsS
          exact absurd hsS (Set.not_mem_empty s)
        · rcases hc.2 with hacc1 | hlt
          · have := hS acc hmem
            rw [hacc1] at this
            linarith
          · exact le_of_lt (lt_of_lt_of_le hlt (hlb s hsS))
      · exact le_refl _
    · rw [if_neg hdisk]
      have hset : S ∪ {s | s = t ∧ EPS < t ∧ cylDiskSq ro rd t ≤ 0.25} = S := by
        ext s
        simp only [Set.mem_union, Set.mem_setOf_eq]
        constructor
        · rintro (hs | ⟨rfl, -, hd2⟩)
          · exact hs
          · exact absurd hd2 hdisk
        · exact Or.inl
      rw [hset]
      exact h
  · rw [if_neg hc]
    push_neg at hc
    by_cases hT : EPS < t
    · have h2 := hc hT
      rcases h with ⟨hacc1, -⟩ | ⟨hmem, hlb⟩
      · exact absurd hacc1 h2.1
      · right
        refine ⟨Or.inl hmem, ?_⟩
        rintro s (hsS | ⟨rfl, -, -⟩)
        · exact hlb s hsS
        · exact h2.2
    · have hset : S ∪ {s | s = t ∧ EPS < t ∧ cylDiskSq ro rd t ≤ 0.25} = S := by
        ext s
        simp only [Set.mem_union, Set.mem_setOf_eq]
        constructor
        · rintro (hs | ⟨rfl, hE, -⟩)
          · exact hs
          · exact absurd hE hT
        · exact Or.inl
      rw [hset]
      exact h

theorem cylLateral_inv (ro rd : V3) (haP : 0 < cylA rd)
    (hd : 0 ≤ cylDisc ro rd) :
    scanInv {t : ℝ | EPS < t ∧ cylDiskSq ro rd t = 0.25 ∧
      cylY ro rd t ≥ -0.5 ∧ cylY ro rd t ≤ 0.5} (cylLateral ro rd) := by
  have hEps : (0 : ℝ) < EPS := by norm_num [EPS]
  have ha : cylA rd ≠ 0 := ne_of_gt haP
  have h12 := cylT1_le_cylT2 ro rd haP
  have hroot := cyl_root_iff ro rd ha hd
  have hmem : ∀ t : ℝ,
      (t ∈ {t : ℝ | EPS < t ∧ cylDiskSq ro rd t = 0.25 ∧
        cylY ro rd t ≥ -0.5 ∧ cylY ro rd t ≤ 0.5}) ↔
      ((t = cylT1 ro rd ∧ cylT1 ro rd > EPS ∧ cylY ro rd (cylT1 ro rd) ≥ -0.5 ∧
          cylY ro rd (cylT1 ro rd) ≤ 0.5) ∨
        (t = cylT2 ro rd ∧ cylT2 ro rd > EPS ∧ cylY ro rd (cylT2 ro rd) ≥ -0.5 ∧
          cylY ro rd (cylT2 ro rd) ≤ 0.5)) := by
    intro t
    simp only [Set.mem_setOf_eq]
    constructor
    · rintro ⟨hE, hq, hlo, hhi⟩
      rcases (hroot t).mp hq with rfl | rfl
      · exact Or.inr ⟨rfl, hE, hlo, hhi⟩
      · exact Or.inl ⟨rfl, hE, hlo, hhi⟩
    · rintro (⟨rfl, hE, hlo, hhi⟩ | ⟨rfl, hE, hlo, hhi⟩)
      · exact ⟨hE, (hroot _).mpr (Or.inr rfl), hlo, hhi⟩
      · exact ⟨hE, (hroot _).mpr (Or.inl rfl), hlo, hhi⟩
  simp only [cylLateral]
  by_cases hC1 : cylT1 ro rd > EPS ∧ cylY ro rd (cylT1 ro rd) ≥ -0.5 ∧
      cylY ro rd (cylT1 ro rd) ≤ 0.5
  · rw [if_pos hC1, if_neg]
    · right
      refine ⟨(hmem _).mpr (Or.inl ⟨rfl, hC1⟩), ?_⟩
      intro s hs
      rcases (hmem s).mp hs with ⟨rfl, -⟩ | ⟨rfl, -⟩
      · exact le_refl _
      · exact h12
    · rintro ⟨h1, -⟩
      rw [h1] at hC1
      linarith [hC1.1]
  · rw [if_neg hC1]
    by_cases hC2 : cylT2 ro rd > EPS ∧ cylY ro rd (cylT2 ro rd) ≥ -0.5 ∧
        cylY ro rd (cylT2 ro rd) ≤ 0.5
    · rw [if_pos ⟨rfl, hC2.1, hC2.2.1, hC2.2.2⟩]
      right
      refine ⟨(hmem _).mpr (Or.inr ⟨rfl, hC2⟩), ?_⟩
      intro s hs
      rcases (hmem s).mp hs with ⟨rfl, hrest⟩ | ⟨rfl, -⟩
      · exact absurd hrest hC1
      · exact le_refl _
    · rw [if_neg (fun h => hC2 ⟨h.2.1, h.2.2.1, h.2.2.2⟩)]
      left
      refine ⟨rfl, ?_⟩
      ext s
      simp only [Set.mem_empty_iff_false, iff_false]
      intro hs
      rcases (hmem s).mp hs with ⟨-, hrest⟩ | ⟨-, hrest⟩
      · exact hC1 hrest
      · exact hC2 hrest

/-- C3 amended: under the source's guards — the ray is not skipped by the
`|a| < EPSILON` early return (`a = rd.x² + rd.z² ≥ EPSILON`) and the cap
branch is reachable (`|rd.y| > EPSILON`) — `intersectCylinder` returns the
smallest `t > EPSILON` among the valid candidates on the three candidate
surfaces (lateral quadratic surface restricted to `y ∈ [-0.5, 0.5]`, top and
bottom cap disks of radius 0.5) whenever such a candidate exists, and the
sentinel `-1` otherwise.  (Unlike the original claim, rays with
`rd.x² + rd.z² < EPSILON` — in particular axis-parallel rays hitting only
the caps — return `-1` without the caps being tested.) -/
theorem claim3_cylinder_nearest_amended (ro rd : V3)
    (ha : EPS ≤ cylA rd) (hy : EPS < |rd.y|) :
    ((∃ t, cylCandidate ro rd t) →
      cylCandidate ro rd (intersectCylinder ro rd) ∧
        ∀ t, cylCandidate ro rd t → intersectCylinder ro rd ≤ t) ∧
    ((¬ ∃ t, cylCandidate ro rd t) → intersectCylinder ro rd = -1) := by
  have hEps : (0 : ℝ) < EPS := by norm_num [EPS]
  have haP : 0 < cylA rd := lt_of_lt_of_le hEps ha
  have habs : ¬ |cylA rd| < EPS := by
    rw [abs_of_pos haP]
    exact not_lt.mpr ha
  have hrdy : rd.y ≠ 0 := by
    intro h0
    rw [h0, abs_zero] at hy
    linarith
  by_cases hd : cylDisc ro rd < 0
  · have hval : intersectCylinder ro rd = -1 := by
      simp only [intersectCylinder]
      rw [if_pos (Or.inl hd)]
    have hnone : ∀ t, ¬ cylCandidate ro rd t := by
      rintro t ⟨hE, hsurf⟩
      have hgt := cyl_no_root ro rd haP hd t
      rcases hsurf with ⟨hq, -, -⟩ | ⟨-, hle⟩ | ⟨-, hle⟩ <;> linarith
    exact ⟨fun ⟨t, ht⟩ => absurd ht (hnone t), fun _ => hval⟩
  · have hd0 : 0 ≤ cylDisc ro rd := not_lt.mp hd
    have hval : intersectCylinder ro rd =
        capStep ro rd (cylTT ro rd)
          (capStep ro rd (cylTB ro rd) (cylLateral ro rd)) := by
      simp only [intersectCylinder]
      rw [if_neg (not_or.mpr ⟨hd, habs⟩), if_pos hy]
    have h0 := cylLateral_inv ro rd haP hd0
    have hSL_eps : ∀ s ∈ {t : ℝ | EPS < t ∧ cylDiskSq ro rd t = 0.25 ∧
        cylY ro rd t ≥ -0.5 ∧ cylY ro rd t ≤ 0.5}, EPS < s := fun s hs => hs.1
    have h1 := capStep_inv ro rd _ (cylLateral ro rd) (cylTB ro rd) hSL_eps h0
    have hSB_eps : ∀ s ∈ ({t : ℝ | EPS < t ∧ cylDiskSq ro rd t = 0.25 ∧
        cylY ro rd t ≥ -0.5 ∧ cylY ro rd t ≤ 0.5} ∪
        {s : ℝ | s = cylTB ro rd ∧ EPS < cylTB ro rd ∧
          cylDiskSq ro rd (cylTB ro rd) ≤ 0.25}), EPS < s := by
      rintro s (hs | ⟨rfl, hE, -⟩)
      · exact hs.1
      · exact hE
    have h2 := capStep_inv ro rd _
      (capStep ro rd (cylTB ro rd) (cylLateral ro rd)) (cylTT ro rd) hSB_eps h1
    have hfin : ∀ t : ℝ,
        (t ∈ ({t : ℝ | EPS < t ∧ cylDiskSq ro rd t = 0.25 ∧
            cylY ro rd t ≥ -0.5 ∧ cylY ro rd t ≤ 0.5} ∪
          {s : ℝ | s = cylTB ro rd ∧ EPS < cylTB ro rd ∧
            cylDiskSq ro rd (cylTB ro rd) ≤ 0.25} ∪
          {s : ℝ | s = cylTT ro rd ∧ EPS < cylTT ro rd ∧
            cylDiskSq ro rd (cylTT ro rd) ≤ 0.25})) ↔
        cylCandidate ro rd t := by
      intro t
      simp only [Set.mem_union, Set.mem_setOf_eq, cylCandidate]
      constructor
      · rintro ((⟨hE, hq, hlo, hhi⟩ | ⟨rfl, hE, hdisk⟩) | ⟨rfl, hE, hdisk⟩)
        · exact ⟨hE, Or.inl ⟨hq, hlo, hhi⟩⟩
        · exact ⟨hE, Or.inr (Or.inl ⟨cylY_TB ro rd hrdy, hdisk⟩)⟩
        · exact ⟨hE, Or.inr (Or.inr ⟨cylY_TT ro rd hrdy, hdisk⟩)⟩
      · rintro ⟨hE, (⟨hq, hlo, hhi⟩ | ⟨hy0, hdisk⟩ | ⟨hy0, hdisk⟩)⟩
        · exact Or.inl (Or.inl ⟨hE, hq, hlo, hhi⟩)
        · have heq := cylY_eq_TB ro rd hrdy t hy0
          subst heq
          exact Or.inl (Or.inr ⟨rfl, hE, hdisk⟩)
        · have heq := cylY_eq_TT ro rd hrdy t hy0
          subst heq
          exact Or.inr ⟨rfl, hE, hdisk⟩
    rw [hval]
    rcases h2 with ⟨hneg, hempty⟩ | ⟨hmem, hlb⟩
    · constructor
      · rintro ⟨t, ht⟩
        have hmem2 := (hfin t).mpr ht
        rw [hempty] at hmem2
        exact absurd hmem2 (Set.not_mem_empty t)
      · intro _
        exact hneg
    · constructor
      · intro _
        exact ⟨(hfin _).mp hmem, fun t ht => hlb t ((hfin t).mpr ht)⟩
      · intro hno
        exact absurd ⟨_, (hfin _).mp hmem⟩ hno

/-- C3 witness: the amended theorem instantiated at a ray satisfying both
guards. -/
theorem claim3_cylinder_nearest_amended_witness :
    (EPS ≤ cylA ⟨0, 1, 1⟩ ∧ EPS < |(⟨0, 1, 1⟩ : V3).y|) ∧
    (((∃ t, cylCandidate ⟨10, 0, 0⟩ ⟨0, 1, 1⟩ t) →
      cylCandidate ⟨10, 0, 0⟩ ⟨0, 1, 1⟩ (intersectCylinder ⟨10, 0, 0⟩ ⟨0, 1, 1⟩) ∧
        ∀ t, cylCandidate ⟨10, 0, 0⟩ ⟨0, 1, 1⟩ t →
          intersectCylinder ⟨10, 0, 0⟩ ⟨0, 1, 1⟩ ≤ t) ∧
    ((¬ ∃ t, cylCandidate ⟨10, 0, 0⟩ ⟨0, 1, 1⟩ t) →
      intersectCylinder ⟨10, 0, 0⟩ ⟨0, 1, 1⟩ = -1)) :=
  ⟨⟨by norm_num [cylA, EPS], by norm_num [EPS]⟩,
    claim3_cylinder_nearest_amended ⟨10, 0, 0⟩ ⟨0, 1, 1⟩
      (by norm_num [cylA, EPS]) (by norm_num [EPS])⟩

/-- C3 counterexample: the axis-parallel ray from (0, 2, 0) with direction
(0, -1, 0) has a valid top-cap candidate at t = 3/2, yet `intersectCylinder`
returns the sentinel -1 — the `|a| < EPSILON` early return fires before the
caps are ever tested, so the claim's "including rays parallel to the
cylinder axis that hit only the caps" fails on the code. -/
theorem claim3_cylinder_counterexample :
    cylCandidate ⟨0, 2, 0⟩ ⟨0, -1, 0⟩ (3 / 2) ∧
    intersectCylinder ⟨0, 2, 0⟩ ⟨0, -1, 0⟩ = -1 := by
  constructor
  · refine ⟨by norm_num [EPS], Or.inr (Or.inr ⟨?_, ?_⟩)⟩
    · norm_num [cylY]
    · norm_num [cylDiskSq]
  · simp only [intersectCylinder]
    rw [if_pos]
    right
    norm_num [cylA, EPS]

theorem V3.add_def (u v : V3) : u + v = ⟨u.x + v.x, u.y + v.y, u.z + v.z⟩ := rfl

theorem V3.sub_def (u v : V3) : u - v = ⟨u.x - v.x, u.y - v.y, u.z - v.z⟩ := rfl

theorem V3.neg_def (v : V3) : -v = ⟨-v.x, -v.y, -v.z⟩ := rfl

theorem V3.smul_def (a : ℝ) (v : V3) : a • v = ⟨a * v.x, a * v.y, a * v.z⟩ := rfl

theorem xfPoint_one (p : V3) : xfPoint (1 : Mat4) p = p := by
  simp [xfPoint, Matrix.one_mulVec]

theorem xfDir_one (d : V3) : xfDir (1 : Mat4) d = d := by
  simp [xfDir, Matrix.one_mulVec]

theorem normalize_negz : V3.normalize ⟨0, 0, -1⟩ = ⟨0, 0, -1⟩ := by
  simp only [V3.normalize, V3.len, V3.dot]
  norm_num [Real.sqrt_one, V3.smul_def]

/-! ### Claim C5: shadow test characterization -/

theorem isInShadowUpTo_iff (scene : Scene) (so L : V3) (maxDist : ℝ)
    (ignore : ℤ) (n : ℕ) :
    isInShadowUpTo scene so L maxDist ignore n ↔
      ∃ i, i < n ∧ (i : ℤ) ≠ ignore ∧ shadowBlocks scene so L maxDist i := by
  induction n with
  | zero =>
    simp only [isInShadowUpTo, false_iff, not_exists]
    rintro i ⟨hi, -⟩
    exact absurd hi (Nat.not_lt_zero i)
  | succ n ih =>
    simp only [isInShadowUpTo, ih]
    constructor
    · rintro (⟨i, hi, hne, hb⟩ | ⟨hne, hb⟩)
      · exact ⟨i, Nat.lt_succ_of_lt hi, hne, hb⟩
      · exact ⟨n, Nat.lt_succ_self n, hne, hb⟩
    · rintro ⟨i, hi, hne, hb⟩
      rcases Nat.lt_succ_iff_lt_or_eq.mp hi with h | rfl
      · exact Or.inl ⟨i, h, hne, hb⟩
      · exact Or.inr ⟨hne, hb⟩

theorem len_eq_zero (v : V3) (h : V3.len v = 0) : v = ⟨0, 0, 0⟩ := by
  have hnn : (0 : ℝ) ≤ V3.dot v v := by
    simp only [V3.dot]
    nlinarith [mul_self_nonneg v.x, mul_self_nonneg v.y, mul_self_nonneg v.z]
  have hd : V3.dot v v = 0 := by
    rw [V3.len] at h
    exact (Real.sqrt_eq_zero hnn).mp h
  simp only [V3.dot] at hd
  have hx : v.x = 0 := mul_self_eq_zero.mp (by
    nlinarith [mul_self_nonneg v.y, mul_self_nonneg v.z])
  have hy : v.y = 0 := mul_self_eq_zero.mp (by
    nlinarith [mul_self_nonneg v.x, mul_self_nonneg v.z])
  have hz : v.z = 0 := mul_self_eq_zero.mp (by
    nlinarith [mul_self_nonneg v.x, mul_self_nonneg v.y])
  have hv : v = ⟨v.x, v.y, v.z⟩ := rfl
  rw [hv, hx, hy, hz]

theorem phongTerm_zero_L (gKd gKs : ℝ) (camPos : V3) (light : Light)
    (mat : RMaterial) (hitWorld normalWorld : V3) :
    phongTerm gKd gKs camPos light mat hitWorld normalWorld ⟨0, 0, 0⟩ =
      ⟨0, 0, 0⟩ := by
  simp only [phongTerm, V3.dot, V3.reflect, V3.neg_def, V3.smul_def,
    V3.sub_def, V3.add_def, V3.cmul]
  norm_num

open Classical in
/-- C5 amended: in the lighting loop of `traceRay`, the shadow ray
originates at the hit point offset by `EPSILON` along the surface normal,
the occlusion scan skips exactly the shading object's own index but covers
only the first `MAX_OBJECTS = 256` object indices, and the light's diffuse
and specular contribution is added if and only if no object with index below
`min(MAX_OBJECTS, objectCount)`, other than the shading object's own index,
has a valid intersection whose world-space distance from the shadow origin
lies strictly between `EPSILON` and the distance to the light (with the
degenerate zero-distance point light contributing nothing either way). -/
theorem claim5_shadow_iff_amended (scene : Scene) (gKd gKs : ℝ) (camPos : V3)
    (light : Light) (mat : RMaterial) (hitWorld normalWorld : V3)
    (hitIndex : ℤ) :
    lightTerm scene gKd gKs camPos light mat hitWorld normalWorld hitIndex =
      if ∃ i, i < min MAX_OBJECTS scene.count ∧ (i : ℤ) ≠ hitIndex ∧
          shadowBlocks scene (hitWorld + EPS • normalWorld)
            (lightLAndDist (hitWorld + EPS • normalWorld) light).1
            (lightLAndDist (hitWorld + EPS • normalWorld) light).2 i
      then ⟨0, 0, 0⟩
      else
        phongTerm gKd gKs camPos light mat hitWorld normalWorld
          (lightLAndDist (hitWorld + EPS • normalWorld) light).1 := by
  simp only [lightTerm]
  by_cases hdeg : light.ltype = 0 ∧
      (lightLAndDist (hitWorld + EPS • normalWorld) light).2 ≤ 0
  · rw [if_pos hdeg]
    have hL : (lightLAndDist (hitWorld + EPS • normalWorld) light).1 =
        ⟨0, 0, 0⟩ := by
      have h2 := hdeg.2
      rw [lightLAndDist, if_pos hdeg.1] at h2 ⊢
      simp only at h2 ⊢
      have hl0 : V3.len (light.pos - (hitWorld + EPS • normalWorld)) = 0 :=
        le_antisymm h2 (Real.sqrt_nonneg _)
      rw [len_eq_zero _ hl0]
      simp [V3.smul_def]
    rw [hL, phongTerm_zero_L]
    split_ifs <;> rfl
  · rw [if_neg hdeg, isInShadow]
    by_cases hocc : ∃ i, i < min MAX_OBJECTS scene.count ∧ (i : ℤ) ≠ hitIndex ∧
        shadowBlocks scene (hitWorld + EPS • normalWorld)
          (lightLAndDist (hitWorld + EPS • normalWorld) light).1
          (lightLAndDist (hitWorld + EPS • normalWorld) light).2 i
    · rw [if_pos hocc,
        if_pos ((isInShadowUpTo_iff scene _ _ _ hitIndex
          (min MAX_OBJECTS scene.count)).mpr hocc)]
    · rw [if_neg hocc,
        if_neg (fun h => hocc
          ((isInShadowUpTo_iff scene _ _ _ hitIndex
            (min MAX_OBJECTS scene.count)).mp h))]

theorem sqrt_sixteen : Real.sqrt (16 : ℝ) = 4 := by
  rw [show (16 : ℝ) = 4 ^ 2 by norm_num]
  exact Real.sqrt_sq (by norm_num)

theorem sqrt_nine_quarters : Real.sqrt ((9 : ℝ) / 4) = 3 / 2 := by
  rw [show (9 : ℝ) / 4 = (3 / 2) ^ 2 by norm_num]
  exact Real.sqrt_sq (by norm_num)

theorem sqrt_nine : Real.sqrt (9 : ℝ) = 3 := by
  rw [show (9 : ℝ) = 3 ^ 2 by norm_num]
  exact Real.sqrt_sq (by norm_num)

theorem sqrt_four : Real.sqrt (4 : ℝ) = 2 := by
  rw [show (4 : ℝ) = 2 ^ 2 by norm_num]
  exact Real.sqrt_sq (by norm_num)

theorem shadowOrigin_257 : hit257 + EPS • (⟨0, 0, -1⟩ : V3) = ⟨0, 0, 2⟩ := by
  norm_num [hit257, V3.add_def, V3.smul_def, EPS]

theorem lightLAndDist_257 :
    lightLAndDist ⟨0, 0, 2⟩ light257 = (⟨0, 0, -1⟩, 4) := by
  norm_num [lightLAndDist, light257, V3.sub_def, V3.len, V3.dot, V3.smul_def,
    sqrt_sixteen]

theorem shadowDispatch_sphere_eval :
    shadowDispatch 3 ⟨0, 0, 2⟩ ⟨0, 0, -1⟩ = 3 / 2 := by
  norm_num [shadowDispatch]
  exact intersectSphere_eval

theorem isInShadow_257_false :
    ¬ isInShadow scene257 ⟨0, 0, 2⟩ ⟨0, 0, -1⟩ 4 0 := by
  rw [isInShadow]
  intro h
  obtain ⟨i, hi, -, hb⟩ :=
    (isInShadowUpTo_iff scene257 _ _ _ 0 (min MAX_OBJECTS scene257.count)).mp h
  have hmin : min MAX_OBJECTS scene257.count = 256 := rfl
  rw [hmin] at hi
  have hty : scene257.objType i = 4 := by
    simp only [scene257]
    rw [if_neg (by omega)]
  have ht := hb.1
  rw [hty] at ht
  have h4 : ∀ a b : V3, shadowDispatch 4 a b = -1 := fun a b => by
    norm_num [shadowDispatch]
  rw [h4] at ht
  norm_num [EPS] at ht

theorem shadowBlocks_257_sphere :
    shadowBlocks scene257 ⟨0, 0, 2⟩ ⟨0, 0, -1⟩ 4 256 := by
  have hty : scene257.objType 256 = 3 := by norm_num [scene257]
  have hM : scene257.worldMatrix 256 = 1 := rfl
  simp only [shadowBlocks, hty, hM, inv_one, xfPoint_one, xfDir_one,
    normalize_negz, shadowDispatch_sphere_eval]
  refine ⟨by norm_num [EPS], ?_, ?_⟩
  · norm_num [V3.add_def, V3.smul_def, V3.sub_def, V3.len, V3.dot,
      sqrt_nine_quarters, sqrt_nine, sqrt_four, EPS]
  · norm_num [V3.add_def, V3.smul_def, V3.sub_def, V3.len, V3.dot,
      sqrt_nine_quarters, sqrt_nine, sqrt_four]

/-- C5 counterexample: in a 257-object scene whose only occluder is the
sphere at index 256 — one object past the `MAX_OBJECTS = 256` bound of the
`isInShadow` loop — the light's diffuse and specular contribution (here the
nonzero value (1, 0, 0)) is added to the pixel color even though another
object (index 256, distinct from the shading index 0) has a valid
intersection whose world-space distance 3/2 from the shadow origin lies
strictly between `EPSILON` and the light distance 4: the claimed "no other
object" iff fails on the code for scenes with more than 256 objects. -/
theorem claim5_shadow_counterexample :
    lightTerm scene257 1 0 ⟨0, 0, 0⟩ light257 mat257 hit257 ⟨0, 0, -1⟩ 0 =
      ⟨1, 0, 0⟩ ∧
    (∃ i, i < scene257.count ∧ (i : ℤ) ≠ 0 ∧
      shadowBlocks scene257 (hit257 + EPS • ⟨0, 0, -1⟩)
        (lightLAndDist (hit257 + EPS • ⟨0, 0, -1⟩) light257).1
        (lightLAndDist (hit257 + EPS • ⟨0, 0, -1⟩) light257).2 i) ∧
    (⟨1, 0, 0⟩ : V3) ≠ ⟨0, 0, 0⟩ := by
  refine ⟨?_, ?_, by norm_num⟩
  · have hcond : ¬ isInShadow scene257 (hit257 + EPS • (⟨0, 0, -1⟩ : V3))
        (lightLAndDist (hit257 + EPS • (⟨0, 0, -1⟩ : V3)) light257).1
        (lightLAndDist (hit257 + EPS • (⟨0, 0, -1⟩ : V3)) light257).2 0 := by
      rw [shadowOrigin_257, lightLAndDist_257]
      exact isInShadow_257_false
    have hcond1 : ¬ (light257.ltype = 0 ∧
        (lightLAndDist (hit257 + EPS • (⟨0, 0, -1⟩ : V3)) light257).2 ≤ 0) := by
      rw [shadowOrigin_257, lightLAndDist_257]
      norm_num [light257]
    simp only [lightTerm]
    rw [if_neg hcond1, if_neg hcond, shadowOrigin_257, lightLAndDist_257]
    simp only [phongTerm, mat257, light257, V3.dot, V3.smul_def, V3.cmul,
      V3.add_def]
    norm_num [max_def]
  · refine ⟨256, by norm_num [scene257], by norm_num, ?_⟩
    rw [shadowOrigin_257, lightLAndDist_257]
    exact shadowBlocks_257_sphere

/-! ### Claim C6: closest hit by world-space distance -/

theorem traceScan_inv (scene : Scene) (ro rd : V3) (n : ℕ) :
    ((traceScan scene ro rd n).hitIndex = -1 ∧
      (traceScan scene ro rd n).closestD = 1e20 ∧
      ∀ j, j < n → ¬(traceValid scene ro rd j ∧ traceD scene ro rd j < 1e20)) ∨
    (∃ h, h < n ∧ (traceScan scene ro rd n).hitIndex = (h : ℤ) ∧
      traceValid scene ro rd h ∧
      (traceScan scene ro rd n).closestD = traceD scene ro rd h ∧
      traceD scene ro rd h < 1e20 ∧
      ∀ j, j < n → traceValid scene ro rd j →
        traceD scene ro rd h ≤ traceD scene ro rd j) := by
  induction n with
  | zero =>
    left
    exact ⟨rfl, rfl, fun j hj => absurd hj (Nat.not_lt_zero j)⟩
  | succ n ih =>
    have hstep : traceScan scene ro rd (n + 1) =
        traceStep scene ro rd (traceScan scene ro rd n) n := rfl
    rcases ih with ⟨hI, hD, hnone⟩ | ⟨g, hg, hI, hval, hD, hlt, hmin⟩
    · by_cases ht : traceT scene ro rd n < EPS
      · left
        rw [hstep, traceStep, if_pos ht]
        refine ⟨hI, hD, ?_⟩
        intro j hj
        rcases Nat.lt_succ_iff_lt_or_eq.mp hj with h | rfl
        · exact hnone j h
        · rintro ⟨⟨hnt, -⟩, -⟩
          exact hnt ht
      · by_cases hcond : traceD scene ro rd n > EPS ∧
            traceD scene ro rd n < (traceScan scene ro rd n).closestD
        · right
          refine ⟨n, Nat.lt_succ_self n, ?_, ⟨ht, hcond.1⟩, ?_, ?_, ?_⟩
          · rw [hstep, traceStep, if_neg ht, if_pos hcond]
          · rw [hstep, traceStep, if_neg ht, if_pos hcond]
          · rw [hD] at hcond
            exact hcond.2
          · intro j hj hvj
            rcases Nat.lt_succ_iff_lt_or_eq.mp hj with h | rfl
            · have h1 := hnone j h
              have h2 : ¬ traceD scene ro rd j < 1e20 := fun hc => h1 ⟨hvj, hc⟩
              rw [hD] at hcond
              linarith [not_lt.mp h2, hcond.2]
            · exact le_refl _
        · left
          rw [hstep, traceStep, if_neg ht, if_neg hcond]
          refine ⟨hI, hD, ?_⟩
          intro j hj
          rcases Nat.lt_succ_iff_lt_or_eq.mp hj with h | rfl
          · exact hnone j h
          · rintro ⟨⟨-, hdE⟩, hdlt⟩
            rw [hD] at hcond
            exact hcond ⟨hdE, hdlt⟩
    · by_cases ht : traceT scene ro rd n < EPS
      · right
        refine ⟨g, Nat.lt_succ_of_lt hg, ?_, hval, ?_, hlt, ?_⟩
        · rw [hstep, traceStep, if_pos ht]
          exact hI
        · rw [hstep, traceStep, if_pos ht]
          exact hD
        · intro j hj hvj
          rcases Nat.lt_succ_iff_lt_or_eq.mp hj with h | rfl
          · exact hmin j h hvj
          · exact absurd ht hvj.1
      · by_cases hcond : traceD scene ro rd n > EPS ∧
            traceD scene ro rd n < (traceScan scene ro rd n).closestD
        · right
          have hdn : traceD scene ro rd n < traceD scene ro rd g := by
            rw [hD] at hcond
            exact hcond.2
          refine ⟨n, Nat.lt_succ_self n, ?_, ⟨ht, hcond.1⟩, ?_, by linarith, ?_⟩
          · rw [hstep, traceStep, if_neg ht, if_pos hcond]
          · rw [hstep, traceStep, if_neg ht, if_pos hcond]
          · intro j hj hvj
            rcases Nat.lt_succ_iff_lt_or_eq.mp hj with h | rfl
            · exact le_of_lt (lt_of_lt_of_le hdn (hmin j h hvj))
            · exact le_refl _
        · right
          refine ⟨g, Nat.lt_succ_of_lt hg, ?_, hval, ?_, hlt, ?_⟩
          · rw [hstep, traceStep, if_neg ht, if_neg hcond]
            exact hI
          · rw [hstep, traceStep, if_neg ht, if_neg hcond]
            exact hD
          · intro j hj hvj
            rcases Nat.lt_succ_iff_lt_or_eq.mp hj with h | rfl
            · exact hmin j h hvj
            · rw [hD] at hcond
              have hnlt : ¬ traceD scene ro rd j < traceD scene ro rd g :=
                fun hc => hcond ⟨hvj.2, hc⟩
              exact not_lt.mp hnlt

/-- C6 amended: the `traceRay` selection loop covers only the first
`MAX_OBJECTS = 256` object indices; whenever it reports a hit index, that
object has a valid intersection (`t ≥ EPSILON` and world distance
`d > EPSILON`), the recorded closest distance is its world-space distance
from the ray origin, and that distance is minimal among all objects with
index below `min(MAX_OBJECTS, objectCount)` that have a valid intersection —
the comparison is on world-space distance `d = length(hitWorld - ro)`, not
on the raw object-space parameter `t`. -/
theorem claim6_trace_closest_amended (scene : Scene) (ro rd : V3) (h : ℕ)
    (hh : (traceResult scene ro rd).hitIndex = (h : ℤ)) :
    h < min MAX_OBJECTS scene.count ∧ traceValid scene ro rd h ∧
      (traceResult scene ro rd).closestD = traceD scene ro rd h ∧
      ∀ j, j < min MAX_OBJECTS scene.count → traceValid scene ro rd j →
        traceD scene ro rd h ≤ traceD scene ro rd j := by
  rw [traceResult] at hh ⊢
  rcases traceScan_inv scene ro rd (min MAX_OBJECTS scene.count) with
    ⟨hI, -, -⟩ | ⟨g, hg, hI, hval, hD, -, hmin⟩
  · rw [hI] at hh
    exact absurd hh (by omega)
  · have hgh : g = h := by
      rw [hI] at hh
      exact_mod_cast hh
    subst hgh
    exact ⟨hg, hval, hD, hmin⟩

theorem traceT_testScene :
    traceT testScene ⟨0, 0, 2⟩ ⟨0, 0, -1⟩ 0 = 3 / 2 := by
  simp only [traceT, testScene]
  rw [inv_one, xfPoint_one, xfDir_one, normalize_negz]
  simp only [traceDispatch]
  rw [if_neg (by norm_num), if_neg (by norm_num), if_neg (by norm_num),
    if_pos trivial]
  exact intersectSphere_eval

theorem traceD_testScene :
    traceD testScene ⟨0, 0, 2⟩ ⟨0, 0, -1⟩ 0 = 3 / 2 := by
  have h94 : Real.sqrt ((9 : ℝ) / 4) = 3 / 2 := by
    rw [show (9 : ℝ) / 4 = (3 / 2) ^ 2 by norm_num]
    exact Real.sqrt_sq (by norm_num)
  simp only [traceD, traceHitWorld, testScene]
  simp only [inv_one, xfPoint_one, xfDir_one, normalize_negz]
  simp only [traceDispatch]
  rw [if_neg (by norm_num), if_neg (by norm_num), if_neg (by norm_num),
    if_pos trivial, intersectSphere_eval]
  norm_num [V3.add_def, V3.smul_def, V3.sub_def, V3.len, V3.dot, h94]

theorem traceScan_testScene :
    (traceResult testScene ⟨0, 0, 2⟩ ⟨0, 0, -1⟩).hitIndex =
      ((0 : ℕ) : ℤ) := by
  have hcount : traceResult testScene ⟨0, 0, 2⟩ ⟨0, 0, -1⟩ =
      traceScan testScene ⟨0, 0, 2⟩ ⟨0, 0, -1⟩ 1 := rfl
  rw [hcount]
  have h1 : traceScan testScene ⟨0, 0, 2⟩ ⟨0, 0, -1⟩ 1 =
      traceStep testScene ⟨0, 0, 2⟩ ⟨0, 0, -1⟩
        (traceScan testScene ⟨0, 0, 2⟩ ⟨0, 0, -1⟩ 0) 0 := rfl
  rw [h1]
  simp only [traceStep, traceScan]
  rw [traceT_testScene, traceD_testScene]
  rw [if_neg (by norm_num [EPS]), if_pos ⟨by norm_num [EPS], by norm_num⟩]

/-- C6 witness: the amended closest-hit theorem instantiated at a one-sphere
scene whose selection loop reports hit index 0. -/
theorem claim6_trace_closest_amended_witness :
    ((traceResult testScene ⟨0, 0, 2⟩ ⟨0, 0, -1⟩).hitIndex =
      ((0 : ℕ) : ℤ)) ∧
    (0 < min MAX_OBJECTS testScene.count ∧
      traceValid testScene ⟨0, 0, 2⟩ ⟨0, 0, -1⟩ 0 ∧
      (traceResult testScene ⟨0, 0, 2⟩ ⟨0, 0, -1⟩).closestD =
        traceD testScene ⟨0, 0, 2⟩ ⟨0, 0, -1⟩ 0 ∧
      ∀ j, j < min MAX_OBJECTS testScene.count →
        traceValid testScene ⟨0, 0, 2⟩ ⟨0, 0, -1⟩ j →
        traceD testScene ⟨0, 0, 2⟩ ⟨0, 0, -1⟩ 0 ≤
          traceD testScene ⟨0, 0, 2⟩ ⟨0, 0, -1⟩ j) :=
  ⟨traceScan_testScene,
    claim6_trace_closest_amended testScene ⟨0, 0, 2⟩ ⟨0, 0, -1⟩ 0
      traceScan_testScene⟩

theorem sqrt_quarter : Real.sqrt ((1 : ℝ) / 4) = 1 / 2 := by
  rw [show (1 : ℝ) / 4 = (1 / 2) ^ 2 by norm_num]
  exact Real.sqrt_sq (by norm_num)

theorem sqrt_fortynine : Real.sqrt (49 : ℝ) = 7 := by
  rw [show (49 : ℝ) = 7 ^ 2 by norm_num]
  exact Real.sqrt_sq (by norm_num)

theorem sqrt_fortynine_sixteenths : Real.sqrt ((49 : ℝ) / 16) = 7 / 4 := by
  rw [show (49 : ℝ) / 16 = (7 / 4) ^ 2 by norm_num]
  exact Real.sqrt_sq (by norm_num)

theorem intersectCone_eval : intersectCone ⟨0, 0, 2⟩ ⟨0, 0, -1⟩ = 7 / 4 := by
  simp only [intersectCone, V3.dot, V3.sub_def, V3.add_def, V3.smul_def]
  norm_num [EPS, min_def, sqrt_quarter, sqrt_four, Real.sqrt_one]

theorem traceT0_257b : traceT scene257b ⟨0, 0, 2⟩ ⟨0, 0, -1⟩ 0 = 7 / 4 := by
  have hty : scene257b.objType 0 = 2 := rfl
  have hM : scene257b.worldMatrix 0 = 1 := rfl
  simp only [traceT, hty, hM, inv_one, xfPoint_one, xfDir_one, normalize_negz]
  simp only [traceDispatch]
  rw [if_neg (by norm_num), if_neg (by norm_num), if_pos trivial]
  exact intersectCone_eval

theorem traceD0_257b : traceD scene257b ⟨0, 0, 2⟩ ⟨0, 0, -1⟩ 0 = 7 / 4 := by
  have hty : scene257b.objType 0 = 2 := rfl
  have hM : scene257b.worldMatrix 0 = 1 := rfl
  simp only [traceD, traceHitWorld, hty, hM, inv_one, xfPoint_one, xfDir_one,
    normalize_negz]
  simp only [traceDispatch]
  rw [if_neg (by norm_num), if_neg (by norm_num), if_pos trivial,
    intersectCone_eval]
  norm_num [V3.add_def, V3.smul_def, V3.sub_def, V3.len, V3.dot,
    sqrt_fortynine_sixteenths, sqrt_fortynine, sqrt_sixteen]

theorem traceT256_257b : traceT scene257b ⟨0, 0, 2⟩ ⟨0, 0, -1⟩ 256 = 3 / 2 := by
  have hty : scene257b.objType 256 = 3 := by norm_num [scene257b]
  have hM : scene257b.worldMatrix 256 = 1 := rfl
  simp only [traceT, hty, hM, inv_one, xfPoint_one, xfDir_one, normalize_negz]
  simp only [traceDispatch]
  rw [if_neg (by norm_num), if_neg (by norm_num), if_neg (by norm_num),
    if_pos trivial]
  exact intersectSphere_eval

theorem traceD256_257b :
    traceD scene257b ⟨0, 0, 2⟩ ⟨0, 0, -1⟩ 256 = 3 / 2 := by
  have hty : scene257b.objType 256 = 3 := by norm_num [scene257b]
  have hM : scene257b.worldMatrix 256 = 1 := rfl
  simp only [traceD, traceHitWorld, hty, hM, inv_one, xfPoint_one, xfDir_one,
    normalize_negz]
  simp only [traceDispatch]
  rw [if_neg (by norm_num), if_neg (by norm_num), if_neg (by norm_num),
    if_pos trivial, intersectSphere_eval]
  norm_num [V3.add_def, V3.smul_def, V3.sub_def, V3.len, V3.dot,
    sqrt_nine_quarters, sqrt_nine, sqrt_four]

theorem traceT_mid_257b (n : ℕ) (h1 : n ≠ 0) (h256 : n ≠ 256) :
    traceT scene257b ⟨0, 0, 2⟩ ⟨0, 0, -1⟩ n = 0 := by
  have hty : scene257b.objType n = 4 := by
    simp only [scene257b]
    rw [if_neg h1, if_neg h256]
  simp only [traceT, hty]
  norm_num [traceDispatch]

theorem traceScan_257b_chain : ∀ n : ℕ, 1 ≤ n → n ≤ 256 →
    traceScan scene257b ⟨0, 0, 2⟩ ⟨0, 0, -1⟩ n =
      traceScan scene257b ⟨0, 0, 2⟩ ⟨0, 0, -1⟩ 1 := by
  intro n
  induction n with
  | zero => intro h1 _; exact absurd h1 (by omega)
  | succ n ih =>
    intro h1 h2
    rcases Nat.eq_or_lt_of_le h1 with heq | hlt
    · rw [← heq]
    · have ht : traceT scene257b ⟨0, 0, 2⟩ ⟨0, 0, -1⟩ n = 0 :=
        traceT_mid_257b n (by omega) (by omega)
      have hstep : traceScan scene257b ⟨0, 0, 2⟩ ⟨0, 0, -1⟩ (n + 1) =
          traceStep scene257b ⟨0, 0, 2⟩ ⟨0, 0, -1⟩
            (traceScan scene257b ⟨0, 0, 2⟩ ⟨0, 0, -1⟩ n) n := rfl
      rw [hstep]
      simp only [traceStep]
      rw [ht, if_pos (by norm_num [EPS])]
      exact ih (by omega) (by omega)

theorem traceResult_257b_hitIndex :
    (traceResult scene257b ⟨0, 0, 2⟩ ⟨0, 0, -1⟩).hitIndex = ((0 : ℕ) : ℤ) := by
  have h256 : traceResult scene257b ⟨0, 0, 2⟩ ⟨0, 0, -1⟩ =
      traceScan scene257b ⟨0, 0, 2⟩ ⟨0, 0, -1⟩ 256 := rfl
  rw [h256, traceScan_257b_chain 256 (by norm_num) (by norm_num)]
  have h1 : traceScan scene257b ⟨0, 0, 2⟩ ⟨0, 0, -1⟩ 1 =
      traceStep scene257b ⟨0, 0, 2⟩ ⟨0, 0, -1⟩
        ⟨1e20, -1, ⟨0, 0, 0⟩, ⟨0, 0, 0⟩⟩ 0 := rfl
  rw [h1]
  simp only [traceStep]
  rw [traceT0_257b, if_neg (by norm_num [EPS]), traceD0_257b,
    if_pos (by norm_num [EPS])]

/-- C6 counterexample: in a 257-object scene with a cone at index 0 (world
hit distance 7/4 on the ray from (0,0,2) along (0,0,-1)) and a sphere at
index 256 (world hit distance 3/2), one object past the `MAX_OBJECTS = 256`
bound of the `traceRay` loop, the loop reports `hitIndex = 0` even though
object 256 is within `uObjectCount`, passes both validity tests, and has a
strictly smaller world-space hit distance: the claimed minimality over all
objects of the scene fails on the code for scenes with more than 256
objects. -/
theorem claim6_trace_closest_counterexample :
    (traceResult scene257b ⟨0, 0, 2⟩ ⟨0, 0, -1⟩).hitIndex = ((0 : ℕ) : ℤ) ∧
    256 < scene257b.count ∧
    traceValid scene257b ⟨0, 0, 2⟩ ⟨0, 0, -1⟩ 256 ∧
    traceD scene257b ⟨0, 0, 2⟩ ⟨0, 0, -1⟩ 256 <
      traceD scene257b ⟨0, 0, 2⟩ ⟨0, 0, -1⟩ 0 := by
  refine ⟨traceResult_257b_hitIndex, by norm_num [scene257b], ⟨?_, ?_⟩, ?_⟩
  · rw [traceT256_257b]
    norm_num [EPS]
  · rw [traceD256_257b]
    norm_num [EPS]
  · rw [traceD256_257b, traceD0_257b]
    norm_num

/-! ### Claim C7: degenerate bones are hidden, with no division by zero -/

theorem createCylinderMatrixChecked_eq (f t : V3) (r h : ℝ) :
    createCylinderMatrixChecked f t r h = some (createCylinderMatrix f t r h) := by
  have hsq1 : (0 : ℝ) ≤ (boneDir f t).x * (boneDir f t).x +
      (boneDir f t).y * (boneDir f t).y + (boneDir f t).z * (boneDir f t).z := by
    nlinarith [mul_self_nonneg (boneDir f t).x, mul_self_nonneg (boneDir f t).y,
      mul_self_nonneg (boneDir f t).z]
  simp only [createCylinderMatrixChecked, createCylinderMatrix, boneLength,
    checkedSqrt, checkedDiv]
  rw [if_pos hsq1]
  simp only [Option.bind_eq_bind, Option.some_bind]
  set L := Real.sqrt ((boneDir f t).x * (boneDir f t).x +
    (boneDir f t).y * (boneDir f t).y + (boneDir f t).z * (boneDir f t).z) with hL
  by_cases hl : L < 0.001
  · rw [if_pos hl, if_pos hl]
    rfl
  · rw [if_neg hl, if_neg hl]
    have hlne : L ≠ 0 := by
      intro h0
      rw [h0] at hl
      exact hl (by norm_num)
    simp only [if_neg hlne, Option.some_bind]
    set yv : V3 := ⟨(boneDir f t).x / L, (boneDir f t).y / L, (boneDir f t).z / L⟩
      with hyv
    have hsq2 : (0 : ℝ) ≤ (boneXAxis0 yv).x * (boneXAxis0 yv).x +
        (boneXAxis0 yv).y * (boneXAxis0 yv).y +
        (boneXAxis0 yv).z * (boneXAxis0 yv).z := by
      nlinarith [mul_self_nonneg (boneXAxis0 yv).x,
        mul_self_nonneg (boneXAxis0 yv).y, mul_self_nonneg (boneXAxis0 yv).z]
    rw [if_pos hsq2]
    simp only [Option.some_bind, boneXLen]
    set X := Real.sqrt ((boneXAxis0 yv).x * (boneXAxis0 yv).x +
      (boneXAxis0 yv).y * (boneXAxis0 yv).y +
      (boneXAxis0 yv).z * (boneXAxis0 yv).z) with hX
    by_cases hx : X > 0.001
    · rw [if_pos hx, if_pos hx]
      have hxne : X ≠ 0 := by
        intro h0
        rw [h0] at hx
        exact absurd hx (by norm_num)
      simp only [if_neg hxne, Option.pure_def, Option.some_bind]
    · rw [if_neg hx, if_neg hx]
      simp only [Option.pure_def, Option.some_bind]

/-- C7: a degenerate anchor pair (separation below the 0.001 threshold)
yields exactly the hidden matrix — scale 0.001 on each axis, translation
(1000, 1000, 1000) — and for every pair of anchor positions the evaluation of
`createCylinderMatrix` performs no division by zero and no square root of a
negative number (the checked evaluation succeeds and agrees), the real-valued
surrogate for "no entry is NaN or Inf". -/
theorem claim7_cylinderMatrix_degenerate (fromPos toPos : V3)
    (radius heightScale : ℝ)
    (hdeg : boneLength fromPos toPos < 0.001) :
    createCylinderMatrix fromPos toPos radius heightScale = hiddenPartMatrix ∧
    (∀ (f t : V3) (r h : ℝ),
      createCylinderMatrixChecked f t r h =
        some (createCylinderMatrix f t r h)) := by
  constructor
  · simp only [createCylinderMatrix]
    rw [if_pos hdeg]
  · intro f t r h
    exact createCylinderMatrixChecked_eq f t r h

/-- C7 witness: identical anchors. -/
theorem claim7_cylinderMatrix_degenerate_witness :
    (boneLength ⟨0, 0, 0⟩ ⟨0, 0, 0⟩ < 0.001) ∧
    (createCylinderMatrix ⟨0, 0, 0⟩ ⟨0, 0, 0⟩ 0.05 1.5 = hiddenPartMatrix ∧
      ∀ (f t : V3) (r h : ℝ),
        createCylinderMatrixChecked f t r h =
          some (createCylinderMatrix f t r h)) := by
  have hdeg : boneLength (⟨0, 0, 0⟩ : V3) ⟨0, 0, 0⟩ < 0.001 := by
    norm_num [boneLength, boneDir, Real.sqrt_zero]
  exact ⟨hdeg, claim7_cylinderMatrix_degenerate ⟨0, 0, 0⟩ ⟨0, 0, 0⟩ 0.05 1.5 hdeg⟩

/-! ### Claims C8-C10: skeleton region update -/

theorem writePart_self (useWorld : Bool) (lms : List (Option Landmark))
    (i : ℕ) (arr : ℕ → ℝ) (n : ℕ) (h1 : n / floatsPerRow = i)
    (h2 : n % floatsPerRow < 35) :
    writePart useWorld lms i arr n =
      posedCell useWorld lms i (n % floatsPerRow) := by
  have hW : floatsPerRow = 36 := rfl
  rw [hW] at h1 h2 ⊢
  simp only [writePart, posedCell, hW]
  by_cases h0 : n % 36 = 0
  · rw [if_pos (by omega), if_pos h0]
  · rw [if_neg (by omega), if_neg h0]
    by_cases hm : 1 ≤ n % 36 ∧ n % 36 < 17
    · rw [dif_pos (by omega : i * 36 + 1 ≤ n ∧ n < i * 36 + 17), dif_pos hm]
      exact congrArg _ (Fin.ext (by simp only [Fin.val_mk]; omega))
    · rw [dif_neg (by omega), dif_neg hm,
        if_pos (by omega : i * 36 + 17 ≤ n ∧ n < i * 36 + 35)]
      congr 1
      omega

theorem writePart_other (useWorld : Bool) (lms : List (Option Landmark))
    (i : ℕ) (arr : ℕ → ℝ) (n : ℕ)
    (h : n / floatsPerRow ≠ i ∨ 35 ≤ n % floatsPerRow) :
    writePart useWorld lms i arr n = arr n := by
  have hW : floatsPerRow = 36 := rfl
  rw [hW] at h
  simp only [writePart, hW]
  rw [if_neg (by omega), dif_neg (by omega), if_neg (by omega)]

theorem writeSkeletonAux_at (useWorld : Bool) (lms : List (Option Landmark))
    (k : ℕ) (arr : ℕ → ℝ) (n : ℕ) :
    writeSkeletonAux useWorld lms k arr n =
      if n / floatsPerRow < k ∧ n % floatsPerRow < 35 then
        posedCell useWorld lms (n / floatsPerRow) (n % floatsPerRow)
      else arr n := by
  have hW : floatsPerRow = 36 := rfl
  induction k with
  | zero =>
    rw [writeSkeletonAux, if_neg (fun hc => absurd hc.1 (Nat.not_lt_zero _))]
  | succ k ih =>
    rw [writeSkeletonAux]
    by_cases hself : n / floatsPerRow = k ∧ n % floatsPerRow < 35
    · rw [writePart_self useWorld lms k _ n hself.1 hself.2,
        if_pos ⟨by omega, hself.2⟩, hself.1]
    · by_cases hdiv : n / floatsPerRow = k
      · have hmod : 35 ≤ n % floatsPerRow := by
          rw [hW] at hself hdiv ⊢
          omega
        rw [writePart_other _ _ _ _ _ (Or.inr hmod), ih,
          if_neg (by rw [hW] at hdiv ⊢; omega), if_neg (by rw [hW] at hmod ⊢; omega)]
      · rw [writePart_other _ _ _ _ _ (Or.inl hdiv), ih]
        by_cases hc : n / floatsPerRow < k ∧ n % floatsPerRow < 35
        · rw [if_pos hc, if_pos ⟨by omega, hc.2⟩]
        · rw [if_neg hc, if_neg (by rw [hW] at hc hdiv ⊢; omega)]

theorem writeSkeletonAux_idem (useWorld : Bool) (lms : List (Option Landmark))
    (arr : ℕ → ℝ) :
    writeSkeletonAux useWorld lms 22 (writeSkeletonAux useWorld lms 22 arr) =
      writeSkeletonAux useWorld lms 22 arr := by
  funext n
  rw [writeSkeletonAux_at useWorld lms 22 (writeSkeletonAux useWorld lms 22 arr) n,
    writeSkeletonAux_at useWorld lms 22 arr n]
  split_ifs <;> rfl

/-- C8: idempotence of the skeleton region update — calling
`updatePoseObjects` twice with the identical pose-data frame leaves exactly
the contents produced by the first call, both in `poseDataArray` and in the
uploaded texture sub-region. -/
theorem claim8_updatePose_idempotent (s : PoseState) (pd : Option PoseData) :
    updatePoseObjects (updatePoseObjects s pd) pd = updatePoseObjects s pd := by
  rcases pd with _ | data
  · rfl
  obtain ⟨poses⟩ := data
  rcases poses with _ | ⟨pose, rest⟩
  · rfl
  obtain ⟨st, pa⟩ := s
  rcases st with _ | tex
  · rfl
  rcases pa with _ | arr0
  · rfl
  by_cases hlen : (chosenLandmarks pose).length < 33
  · have hu : updatePoseObjects ⟨some tex, some arr0⟩ (some ⟨pose :: rest⟩) =
        ⟨some tex, some arr0⟩ := by
      simp only [updatePoseObjects]
      rw [if_pos hlen]
    rw [hu]
    exact hu
  · have hu : updatePoseObjects ⟨some tex, some arr0⟩ (some ⟨pose :: rest⟩) =
        ⟨some (writeSkeletonAux (pose.worldLandmarks.length > 0)
            (chosenLandmarks pose) 22 arr0),
          some (writeSkeletonAux (pose.worldLandmarks.length > 0)
            (chosenLandmarks pose) 22 arr0)⟩ := by
      simp only [updatePoseObjects]
      rw [if_neg hlen]
    rw [hu]
    simp only [updatePoseObjects]
    rw [if_neg hlen, writeSkeletonAux_idem]

/-- C9: atomicity at the skeleton-update interface — when the pose data is
missing, has no poses, or its first pose has fewer than 33 landmarks, or the
scene texture or pose array is not yet allocated, `updatePoseObjects`
returns before any write and the state (skeleton buffer region and GPU
texture region) is completely unchanged. -/
theorem claim9_updatePose_early_return (s : PoseState) (pd : Option PoseData)
    (h : pd = none ∨ ∃ d, pd = some d ∧ (d.poses = [] ∨
      ∃ p ps, d.poses = p :: ps ∧ (s.sceneTexture = none ∨
        s.poseDataArray = none ∨ (chosenLandmarks p).length < 33))) :
    updatePoseObjects s pd = s := by
  rcases h with rfl | ⟨d, rfl, hd⟩
  · rfl
  obtain ⟨poses⟩ := d
  rcases poses with _ | ⟨p0, ps0⟩
  · rfl
  rcases hd with hnil | ⟨p, ps, hcons, hguard⟩
  · exact absurd hnil (by simp)
  · injection hcons with h1 h2
    subst h1
    obtain ⟨st, pa⟩ := s
    rcases st with _ | tex
    · rfl
    rcases pa with _ | arr0
    · rfl
    rcases hguard with hst | hpa | hlen
    · exact absurd hst (by simp)
    · exact absurd hpa (by simp)
    · simp only [updatePoseObjects]
      rw [if_pos hlen]

/-- C9 witness: a missing pose-data record leaves a fresh state untouched. -/
theorem claim9_updatePose_early_return_witness :
    ((none : Option PoseData) = none ∨ ∃ d, (none : Option PoseData) = some d ∧
      (d.poses = [] ∨ ∃ p ps, d.poses = p :: ps ∧
        ((⟨none, none⟩ : PoseState).sceneTexture = none ∨
          (⟨none, none⟩ : PoseState).poseDataArray = none ∨
          (chosenLandmarks p).length < 33))) ∧
    updatePoseObjects ⟨none, none⟩ none = ⟨none, none⟩ :=
  ⟨Or.inl rfl, claim9_updatePose_early_return ⟨none, none⟩ none (Or.inl rfl)⟩

/-- C10: on every successful skeleton update the diffuse color of each of
the 22 skeleton records is rewritten to a fixed value determined solely by
part type — head (1,1,0), torso (0.6,0.6,0.6), joints (1,0,0), bones
(0,1,1) — independent of the landmark values; each of these posed colors
differs from that part type's initialization default (head (1,0.8,0.6),
torso (0.2,0.4,0.8), joints (0.9,0.9,0.9), bones (0.6,0.6,0.6)), the only
gray-to-gray coincidence being the posed torso color equalling the default
bone color; in particular a posed skeleton never keeps its default head,
joint, or torso colors. -/
theorem claim10_posed_colors (s : PoseState) (pd : Option PoseData)
    (d : PoseData) (p : Pose) (ps : List Pose) (tex0 arr0 : ℕ → ℝ)
    (hpd : pd = some d) (hposes : d.poses = p :: ps)
    (hst : s.sceneTexture = some tex0) (hpa : s.poseDataArray = some arr0)
    (hlen : ¬ (chosenLandmarks p).length < 33) :
    ∃ arr : ℕ → ℝ, (updatePoseObjects s pd).poseDataArray = some arr ∧
      (updatePoseObjects s pd).sceneTexture = some arr ∧
      (∀ i, i < 22 →
        arr (i * floatsPerRow + 20) = (posedDiffuse (skelPart i).ptype).x ∧
        arr (i * floatsPerRow + 21) = (posedDiffuse (skelPart i).ptype).y ∧
        arr (i * floatsPerRow + 22) = (posedDiffuse (skelPart i).ptype).z) ∧
      posedDiffuse PartType.head ≠ initDiffuse PartType.head ∧
      posedDiffuse PartType.torso ≠ initDiffuse PartType.torso ∧
      posedDiffuse PartType.joint ≠ initDiffuse PartType.joint ∧
      posedDiffuse PartType.bone ≠ initDiffuse PartType.bone ∧
      posedDiffuse PartType.torso = initDiffuse PartType.bone := by
  have hW : floatsPerRow = 36 := rfl
  subst hpd
  obtain ⟨poses⟩ := d
  simp only at hposes
  subst hposes
  obtain ⟨st, pa⟩ := s
  simp only at hst hpa
  subst hst
  subst hpa
  have hval : updatePoseObjects ⟨some tex0, some arr0⟩ (some ⟨p :: ps⟩) =
      ⟨some (writeSkeletonAux (p.worldLandmarks.length > 0)
          (chosenLandmarks p) 22 arr0),
        some (writeSkeletonAux (p.worldLandmarks.length > 0)
          (chosenLandmarks p) 22 arr0)⟩ := by
    simp only [updatePoseObjects]
    rw [if_neg hlen]
  refine ⟨writeSkeletonAux (p.worldLandmarks.length > 0)
      (chosenLandmarks p) 22 arr0, by rw [hval], by rw [hval], ?_, ?_, ?_, ?_, ?_, ?_⟩
  · intro i hi
    have hcell : ∀ c : ℕ, c < 35 → 17 ≤ c →
        writeSkeletonAux (p.worldLandmarks.length > 0)
          (chosenLandmarks p) 22 arr0 (i * floatsPerRow + c) =
          posedMaterial (skelPart i).ptype (c - 17) := by
      intro c hc h17
      rw [writeSkeletonAux_at]
      have hdiv : (i * floatsPerRow + c) / floatsPerRow = i := by
        rw [hW]
        omega
      have hmod : (i * floatsPerRow + c) % floatsPerRow = c := by
        rw [hW]
        omega
      rw [if_pos (by rw [hdiv, hmod]; exact ⟨hi, hc⟩), hdiv, hmod, posedCell,
        if_neg (by omega), dif_neg (by omega)]
    refine ⟨?_, ?_, ?_⟩
    · rw [hcell 20 (by norm_num) (by norm_num)]
      norm_num [posedMaterial]
    · rw [hcell 21 (by norm_num) (by norm_num)]
      norm_num [posedMaterial]
    · rw [hcell 22 (by norm_num) (by norm_num)]
      norm_num [posedMaterial]
  · norm_num [posedDiffuse, initDiffuse, V3.mk.injEq]
  · norm_num [posedDiffuse, initDiffuse, V3.mk.injEq]
  · norm_num [posedDiffuse, initDiffuse, V3.mk.injEq]
  · norm_num [posedDiffuse, initDiffuse, V3.mk.injEq]
  · norm_num [posedDiffuse, initDiffuse]

/-- C10 witness: a full 33-landmark frame on an allocated state. -/
theorem claim10_posed_colors_witness :
    ((some testPoseData : Option PoseData) = some testPoseData ∧
      testPoseData.poses = testPose :: [] ∧
      testPoseState.sceneTexture = some (fun _ => 0) ∧
      testPoseState.poseDataArray = some (fun _ => 0) ∧
      ¬ (chosenLandmarks testPose).length < 33) ∧
    (∃ arr : ℕ → ℝ,
      (updatePoseObjects testPoseState (some testPoseData)).poseDataArray =
        some arr ∧
      (updatePoseObjects testPoseState (some testPoseData)).sceneTexture =
        some arr ∧
      (∀ i, i < 22 →
        arr (i * floatsPerRow + 20) = (posedDiffuse (skelPart i).ptype).x ∧
        arr (i * floatsPerRow + 21) = (posedDiffuse (skelPart i).ptype).y ∧
        arr (i * floatsPerRow + 22) = (posedDiffuse (skelPart i).ptype).z) ∧
      posedDiffuse PartType.head ≠ initDiffuse PartType.head ∧
      posedDiffuse PartType.torso ≠ initDiffuse PartType.torso ∧
      posedDiffuse PartType.joint ≠ initDiffuse PartType.joint ∧
      posedDiffuse PartType.bone ≠ initDiffuse PartType.bone ∧
      posedDiffuse PartType.torso = initDiffuse PartType.bone) := by
  have hlen : ¬ (chosenLandmarks testPose).length < 33 := by
    norm_num [chosenLandmarks, testPose, testLandmarks]
  exact ⟨⟨rfl, rfl, rfl, rfl, hlen⟩,
    claim10_posed_colors testPoseState (some testPoseData) testPoseData
      testPose [] (fun _ => 0) (fun _ => 0) rfl rfl rfl rfl hlen⟩

end Dummy
